import Mathlib

/-!
Verification of the ReBAC (relationship-based access control) evaluation
logic of the two demo domains of this repository: the banking hierarchy
(`src/demos/banking-app/banking_demo.rs`) and the GenAI RAG hierarchy
(`src/demos/genai-rag/genai_rag_demo.rs`).

The Rust code is shallowly embedded: each Rust struct becomes a Lean
structure, each `HashMap` becomes an association list with `List.lookup`,
and each permission-check method becomes a total Lean function over a
graph-state record.  The two demo files duplicate identical definitions of
`AuthorizationRequest`, `AuthorizationResponse` and `OpenFGATuple`; they
are defined once here and shared by both namespaces.
-/

/-! ## `type:id` reference strings

Rust parses references with `s.split(':').next()` (first segment; always
present) and `s.split(':').nth(1).unwrap_or("")` (second segment, or the
empty string).  `splitCh` is the model of `str::split(':')` on the
character list of a string, and `seg n s` is the n-th segment with
default `""`. -/

def splitCh : List Char → List (List Char)
  | [] => [[]]
  | c :: cs =>
    if c = ':' then [] :: splitCh cs
    else
      match splitCh cs with
      | [] => [[c]]
      | p :: ps => (c :: p) :: ps

def seg (n : Nat) (s : String) : String :=
  String.mk ((splitCh s.data).getD n [])

/-- `format!("{}:{}", t, i)`: build a `type:id` reference string. -/
def mkRef (t i : String) : String := t ++ ":" ++ i

/-! ## Shared request / response / tuple types -/

structure AuthorizationRequest where
  user : String
  relation : String
  object : String
deriving DecidableEq, Repr

structure AuthorizationResponse where
  allowed : Bool
  reason : Option String
deriving DecidableEq, Repr

structure OpenFGATuple where
  user : String
  relation : String
  object : String
deriving DecidableEq, Repr

/-! ## GenAI RAG domain (`src/demos/genai-rag/genai_rag_demo.rs`) -/

namespace GenAI

structure GenAIUser where
  id : String
  name : String
  email : String
  role : String
deriving DecidableEq, Repr

structure Organization where
  id : String
  name : String
  admins : List String
  members : List String
deriving DecidableEq, Repr

structure KnowledgeBase where
  id : String
  name : String
  description : String
  parent_org_id : String
  curators : List String
  contributors : List String
  readers : List String
deriving DecidableEq, Repr

structure Document where
  id : String
  title : String
  content : String
  parent_kb_id : String
  owner_id : String
  editors : List String
  viewers : List String
  tags : List String
  created_at : String
  updated_at : String
deriving DecidableEq, Repr

structure AIModel where
  id : String
  name : String
  model_type : String
  parent_org_id : String
  operators : List String
  users : List String
  config : List (String × String)
deriving DecidableEq, Repr

structure RAGSession where
  id : String
  name : String
  parent_kb_id : String
  parent_model_id : String
  owner_id : String
  participants : List String
  created_at : String
  status : String
deriving DecidableEq, Repr

/-- `confidence_score : f64` is modelled as a pair of numerator/denominator
naturals; no check ever reads it, so its representation is inert. -/
structure RAGQuery where
  id : String
  parent_session_id : String
  initiated_by : String
  query_text : String
  queried_documents : List String
  response_text : String
  timestamp : String
  confidence_score : Nat × Nat
deriving DecidableEq, Repr

/-- The `GenAIRAGDemo` struct: each `HashMap<String, T>` is an association
list keyed by id (`insert` keys by id), looked up with `List.lookup`.
The derived `tuples` vector is computed by `setup_authorization_tuples`
below rather than stored. -/
structure State where
  users : List (String × GenAIUser)
  organizations : List (String × Organization)
  knowledge_bases : List (String × KnowledgeBase)
  documents : List (String × Document)
  ai_models : List (String × AIModel)
  rag_sessions : List (String × RAGSession)
  rag_queries : List (String × RAGQuery)
deriving DecidableEq, Repr

def is_kb_curator (g : State) (kb_id user_id : String) : Bool :=
  match List.lookup kb_id g.knowledge_bases with
  | some kb => kb.curators.contains user_id
  | none => false

def is_kb_contributor (g : State) (kb_id user_id : String) : Bool :=
  match List.lookup kb_id g.knowledge_bases with
  | some kb => kb.contributors.contains user_id
  | none => false

def is_kb_reader (g : State) (kb_id user_id : String) : Bool :=
  match List.lookup kb_id g.knowledge_bases with
  | some kb => kb.readers.contains user_id
  | none => false

def is_org_member_for_kb (g : State) (kb_id user_id : String) : Bool :=
  match List.lookup kb_id g.knowledge_bases with
  | some kb =>
    match List.lookup kb.parent_org_id g.organizations with
    | some org => org.members.contains user_id || org.admins.contains user_id
    | none => false
  | none => false

def is_org_admin_for_kb (g : State) (kb_id user_id : String) : Bool :=
  match List.lookup kb_id g.knowledge_bases with
  | some kb =>
    match List.lookup kb.parent_org_id g.organizations with
    | some org => org.admins.contains user_id
    | none => false
  | none => false

def is_document_owner (g : State) (doc_id user_id : String) : Bool :=
  match List.lookup doc_id g.documents with
  | some doc => doc.owner_id == user_id
  | none => false

def is_document_editor (g : State) (doc_id user_id : String) : Bool :=
  match List.lookup doc_id g.documents with
  | some doc => doc.editors.contains user_id
  | none => false

def is_document_viewer (g : State) (doc_id user_id : String) : Bool :=
  match List.lookup doc_id g.documents with
  | some doc => doc.viewers.contains user_id
  | none => false

def is_model_operator (g : State) (model_id user_id : String) : Bool :=
  match List.lookup model_id g.ai_models with
  | some model => model.operators.contains user_id
  | none => false

def is_model_user (g : State) (model_id user_id : String) : Bool :=
  match List.lookup model_id g.ai_models with
  | some model => model.users.contains user_id
  | none => false

def is_org_member_for_model (g : State) (model_id user_id : String) : Bool :=
  match List.lookup model_id g.ai_models with
  | some model =>
    match List.lookup model.parent_org_id g.organizations with
    | some org => org.members.contains user_id || org.admins.contains user_id
    | none => false
  | none => false

def is_org_admin_for_model (g : State) (model_id user_id : String) : Bool :=
  match List.lookup model_id g.ai_models with
  | some model =>
    match List.lookup model.parent_org_id g.organizations with
    | some org => org.admins.contains user_id
    | none => false
  | none => false

def is_session_owner (g : State) (session_id user_id : String) : Bool :=
  match List.lookup session_id g.rag_sessions with
  | some session => session.owner_id == user_id
  | none => false

def is_session_participant (g : State) (session_id user_id : String) : Bool :=
  match List.lookup session_id g.rag_sessions with
  | some session => session.participants.contains user_id
  | none => false

def is_query_initiator (g : State) (query_id user_id : String) : Bool :=
  match List.lookup query_id g.rag_queries with
  | some query => query.initiated_by == user_id
  | none => false

def check_kb_view_permission (g : State) (request : AuthorizationRequest) :
    AuthorizationResponse :=
  let kb_id := seg 1 request.object
  let user_id := seg 1 request.user
  if is_kb_curator g kb_id user_id || is_kb_contributor g kb_id user_id ||
      is_kb_reader g kb_id user_id then
    { allowed := true, reason := some "User has direct KB role" }
  else if is_org_member_for_kb g kb_id user_id then
    { allowed := true, reason := some "User is organization member" }
  else
    { allowed := false, reason := some "User not authorized to view knowledge base" }

def check_kb_contribute_permission (g : State) (request : AuthorizationRequest) :
    AuthorizationResponse :=
  let kb_id := seg 1 request.object
  let user_id := seg 1 request.user
  if is_kb_curator g kb_id user_id || is_kb_contributor g kb_id user_id then
    { allowed := true, reason := some "User is curator or contributor" }
  else
    { allowed := false, reason := some "User not authorized to contribute to knowledge base" }

def check_kb_curate_permission (g : State) (request : AuthorizationRequest) :
    AuthorizationResponse :=
  let kb_id := seg 1 request.object
  let user_id := seg 1 request.user
  if is_kb_curator g kb_id user_id then
    { allowed := true, reason := some "User is curator" }
  else
    { allowed := false, reason := some "User not authorized to curate knowledge base" }

def check_kb_admin_permission (g : State) (request : AuthorizationRequest) :
    AuthorizationResponse :=
  let kb_id := seg 1 request.object
  let user_id := seg 1 request.user
  if is_kb_curator g kb_id user_id || is_org_admin_for_kb g kb_id user_id then
    { allowed := true, reason := some "User is curator or org admin" }
  else
    { allowed := false, reason := some "User not authorized to admin knowledge base" }

def can_view_kb_for_document (g : State) (doc_id user_id : String) : Bool :=
  match List.lookup doc_id g.documents with
  | some doc =>
    (check_kb_view_permission g
      { user := mkRef "user" user_id, relation := "can_view",
        object := mkRef "knowledge_base" doc.parent_kb_id }).allowed
  | none => false

def can_contribute_to_kb_for_document (g : State) (doc_id user_id : String) : Bool :=
  match List.lookup doc_id g.documents with
  | some doc =>
    (check_kb_contribute_permission g
      { user := mkRef "user" user_id, relation := "can_contribute",
        object := mkRef "knowledge_base" doc.parent_kb_id }).allowed
  | none => false

def can_curate_kb_for_document (g : State) (doc_id user_id : String) : Bool :=
  match List.lookup doc_id g.documents with
  | some doc =>
    (check_kb_curate_permission g
      { user := mkRef "user" user_id, relation := "can_curate",
        object := mkRef "knowledge_base" doc.parent_kb_id }).allowed
  | none => false

def check_document_view_permission (g : State) (request : AuthorizationRequest) :
    AuthorizationResponse :=
  let doc_id := seg 1 request.object
  let user_id := seg 1 request.user
  if is_document_owner g doc_id user_id || is_document_editor g doc_id user_id ||
      is_document_viewer g doc_id user_id then
    { allowed := true, reason := some "User has direct document access" }
  else
    match List.lookup doc_id g.documents with
    | some doc =>
      if doc.viewers.isEmpty && doc.editors.isEmpty then
        if can_curate_kb_for_document g doc_id user_id then
          { allowed := true, reason := some "User can curate parent knowledge base" }
        else
          { allowed := false, reason := some "User not authorized to view document" }
      else
        if can_view_kb_for_document g doc_id user_id then
          { allowed := true, reason := some "User can view parent knowledge base" }
        else
          { allowed := false, reason := some "User not authorized to view document" }
    | none => { allowed := false, reason := some "User not authorized to view document" }

def check_document_edit_permission (g : State) (request : AuthorizationRequest) :
    AuthorizationResponse :=
  let doc_id := seg 1 request.object
  let user_id := seg 1 request.user
  if is_document_owner g doc_id user_id || is_document_editor g doc_id user_id then
    { allowed := true, reason := some "User is document owner or editor" }
  else if can_contribute_to_kb_for_document g doc_id user_id then
    { allowed := true, reason := some "User can contribute to parent knowledge base" }
  else
    { allowed := false, reason := some "User not authorized to edit document" }

def check_document_delete_permission (g : State) (request : AuthorizationRequest) :
    AuthorizationResponse :=
  let doc_id := seg 1 request.object
  let user_id := seg 1 request.user
  if is_document_owner g doc_id user_id then
    { allowed := true, reason := some "User is document owner" }
  else if can_curate_kb_for_document g doc_id user_id then
    { allowed := true, reason := some "User can curate parent knowledge base" }
  else
    { allowed := false, reason := some "User not authorized to delete document" }

/-- For RAG usage, same as view permission. -/
def check_document_rag_permission (g : State) (request : AuthorizationRequest) :
    AuthorizationResponse :=
  check_document_view_permission g request

def check_model_use_permission (g : State) (request : AuthorizationRequest) :
    AuthorizationResponse :=
  let model_id := seg 1 request.object
  let user_id := seg 1 request.user
  if is_model_operator g model_id user_id || is_model_user g model_id user_id then
    { allowed := true, reason := some "User has direct model access" }
  else if is_org_member_for_model g model_id user_id then
    { allowed := true, reason := some "User is organization member" }
  else
    { allowed := false, reason := some "User not authorized to use AI model" }

def check_model_configure_permission (g : State) (request : AuthorizationRequest) :
    AuthorizationResponse :=
  let model_id := seg 1 request.object
  let user_id := seg 1 request.user
  if is_model_operator g model_id user_id || is_org_admin_for_model g model_id user_id then
    { allowed := true, reason := some "User is model operator or org admin" }
  else
    { allowed := false, reason := some "User not authorized to configure AI model" }

def check_model_admin_permission (g : State) (request : AuthorizationRequest) :
    AuthorizationResponse :=
  let model_id := seg 1 request.object
  let user_id := seg 1 request.user
  if is_model_operator g model_id user_id then
    { allowed := true, reason := some "User is model operator" }
  else
    { allowed := false, reason := some "User not authorized to admin AI model" }

def check_session_view_permission (g : State) (request : AuthorizationRequest) :
    AuthorizationResponse :=
  let session_id := seg 1 request.object
  let user_id := seg 1 request.user
  if is_session_owner g session_id user_id || is_session_participant g session_id user_id then
    { allowed := true, reason := some "User is session owner or participant" }
  else
    { allowed := false, reason := some "User not authorized to view RAG session" }

/-- Same as view permission for sessions. -/
def check_session_query_permission (g : State) (request : AuthorizationRequest) :
    AuthorizationResponse :=
  check_session_view_permission g request

def can_view_session_kb (g : State) (session_id user_id : String) : Bool :=
  match List.lookup session_id g.rag_sessions with
  | some session =>
    (check_kb_view_permission g
      { user := mkRef "user" user_id, relation := "can_view",
        object := mkRef "knowledge_base" session.parent_kb_id }).allowed
  | none => false

def check_session_document_access_permission (g : State) (request : AuthorizationRequest) :
    AuthorizationResponse :=
  let session_id := seg 1 request.object
  let user_id := seg 1 request.user
  if (is_session_owner g session_id user_id || is_session_participant g session_id user_id)
      && can_view_session_kb g session_id user_id then
    { allowed := true, reason := some "User can query session and view KB documents" }
  else
    { allowed := false, reason := some "User not authorized to access documents in RAG session" }

def can_view_query_session (g : State) (query_id user_id : String) : Bool :=
  match List.lookup query_id g.rag_queries with
  | some query =>
    (check_session_view_permission g
      { user := mkRef "user" user_id, relation := "can_view",
        object := mkRef "rag_session" query.parent_session_id }).allowed
  | none => false

def check_query_view_permission (g : State) (request : AuthorizationRequest) :
    AuthorizationResponse :=
  let query_id := seg 1 request.object
  let user_id := seg 1 request.user
  if is_query_initiator g query_id user_id then
    { allowed := true, reason := some "User initiated the query" }
  else if can_view_query_session g query_id user_id then
    { allowed := true, reason := some "User can view parent session" }
  else
    { allowed := false, reason := some "User not authorized to view RAG query" }

/-- The `for` loop returning `false` on the first document failing the
`can_use_in_rag` check is `List.all`. -/
def can_access_all_queried_documents (g : State) (query_id user_id : String) : Bool :=
  match List.lookup query_id g.rag_queries with
  | some query =>
    query.queried_documents.all (fun doc_id =>
      (check_document_rag_permission g
        { user := mkRef "user" user_id, relation := "can_use_in_rag",
          object := mkRef "document" doc_id }).allowed)
  | none => false

def check_query_results_permission (g : State) (request : AuthorizationRequest) :
    AuthorizationResponse :=
  let query_id := seg 1 request.object
  let user_id := seg 1 request.user
  if (check_query_view_permission g request).allowed
      && can_access_all_queried_documents g query_id user_id then
    { allowed := true, reason := some "User can view query and access all referenced documents" }
  else
    { allowed := false, reason := some "User not authorized to access query results" }

/-- The dispatch `match (request.relation.as_str(), request.object.split(..).next())`;
the match arms are tested in order and are mutually exclusive. -/
def check_authorization (g : State) (request : AuthorizationRequest) :
    AuthorizationResponse :=
  let t := seg 0 request.object
  if request.relation = "can_view" ∧ t = "knowledge_base" then
    check_kb_view_permission g request
  else if request.relation = "can_contribute" ∧ t = "knowledge_base" then
    check_kb_contribute_permission g request
  else if request.relation = "can_curate" ∧ t = "knowledge_base" then
    check_kb_curate_permission g request
  else if request.relation = "can_admin" ∧ t = "knowledge_base" then
    check_kb_admin_permission g request
  else if request.relation = "can_view" ∧ t = "document" then
    check_document_view_permission g request
  else if request.relation = "can_edit" ∧ t = "document" then
    check_document_edit_permission g request
  else if request.relation = "can_delete" ∧ t = "document" then
    check_document_delete_permission g request
  else if request.relation = "can_use_in_rag" ∧ t = "document" then
    check_document_rag_permission g request
  else if request.relation = "can_use" ∧ t = "ai_model" then
    check_model_use_permission g request
  else if request.relation = "can_configure" ∧ t = "ai_model" then
    check_model_configure_permission g request
  else if request.relation = "can_admin" ∧ t = "ai_model" then
    check_model_admin_permission g request
  else if request.relation = "can_view" ∧ t = "rag_session" then
    check_session_view_permission g request
  else if request.relation = "can_query" ∧ t = "rag_session" then
    check_session_query_permission g request
  else if request.relation = "can_access_documents" ∧ t = "rag_session" then
    check_session_document_access_permission g request
  else if request.relation = "can_view" ∧ t = "rag_query" then
    check_query_view_permission g request
  else if request.relation = "can_access_results" ∧ t = "rag_query" then
    check_query_results_permission g request
  else
    { allowed := false, reason := some "Unknown permission" }

def get_documents_for_user (g : State) (user_id : String) : List Document :=
  (g.documents.map (fun p => p.2)).filter (fun doc =>
    (check_authorization g
      { user := mkRef "user" user_id, relation := "can_view",
        object := mkRef "document" doc.id }).allowed)

def get_filtered_rag_response (g : State) (query_id user_id : String) : Option String :=
  match List.lookup query_id g.rag_queries with
  | some query =>
    if (check_authorization g
        { user := mkRef "user" user_id, relation := "can_access_results",
          object := mkRef "rag_query" query_id }).allowed then
      some query.response_text
    else
      some "Access denied: Insufficient permissions to view query results"
  | none => none

/-- `setup_authorization_tuples`: the sequence of `tuples.push` calls, in
program order.  Only the organization with id `"org1"` is consulted (the
code does `organizations.get("org1")`); the other entity families are
iterated in full. -/
def setup_authorization_tuples (g : State) : List OpenFGATuple :=
  (match List.lookup "org1" g.organizations with
   | some org =>
     org.admins.map (fun admin =>
       { user := mkRef "user" admin, relation := "admin", object := "organization:org1" })
     ++ org.members.map (fun member =>
       { user := mkRef "user" member, relation := "member", object := "organization:org1" })
   | none => [])
  ++ (g.knowledge_bases.map (fun p => p.2)).flatMap (fun kb =>
       { user := mkRef "organization" kb.parent_org_id, relation := "parent_org",
         object := mkRef "knowledge_base" kb.id }
       :: (kb.curators.map (fun curator =>
            { user := mkRef "user" curator, relation := "curator",
              object := mkRef "knowledge_base" kb.id })
       ++ kb.contributors.map (fun contributor =>
            { user := mkRef "user" contributor, relation := "contributor",
              object := mkRef "knowledge_base" kb.id })
       ++ kb.readers.map (fun reader =>
            { user := mkRef "user" reader, relation := "reader",
              object := mkRef "knowledge_base" kb.id })))
  ++ (g.documents.map (fun p => p.2)).flatMap (fun doc =>
       { user := mkRef "knowledge_base" doc.parent_kb_id, relation := "parent_kb",
         object := mkRef "document" doc.id }
       :: { user := mkRef "user" doc.owner_id, relation := "owner",
            object := mkRef "document" doc.id }
       :: (doc.editors.map (fun editor =>
            { user := mkRef "user" editor, relation := "editor",
              object := mkRef "document" doc.id })
       ++ doc.viewers.map (fun viewer =>
            { user := mkRef "user" viewer, relation := "viewer",
              object := mkRef "document" doc.id })))
  ++ (g.ai_models.map (fun p => p.2)).flatMap (fun model =>
       { user := mkRef "organization" model.parent_org_id, relation := "parent_org",
         object := mkRef "ai_model" model.id }
       :: (model.operators.map (fun opr =>
            { user := mkRef "user" opr, relation := "operator",
              object := mkRef "ai_model" model.id })
       ++ model.users.map (fun u =>
            { user := mkRef "user" u, relation := "user",
              object := mkRef "ai_model" model.id })))
  ++ (g.rag_sessions.map (fun p => p.2)).flatMap (fun session =>
       { user := mkRef "knowledge_base" session.parent_kb_id, relation := "parent_kb",
         object := mkRef "rag_session" session.id }
       :: { user := mkRef "ai_model" session.parent_model_id, relation := "parent_model",
            object := mkRef "rag_session" session.id }
       :: { user := mkRef "user" session.owner_id, relation := "owner",
            object := mkRef "rag_session" session.id }
       :: session.participants.map (fun participant =>
            { user := mkRef "user" participant, relation := "participant",
              object := mkRef "rag_session" session.id }))
  ++ (g.rag_queries.map (fun p => p.2)).flatMap (fun query =>
       { user := mkRef "rag_session" query.parent_session_id, relation := "parent_session",
         object := mkRef "rag_query" query.id }
       :: { user := mkRef "user" query.initiated_by, relation := "initiated_by",
            object := mkRef "rag_query" query.id }
       :: query.queried_documents.map (fun doc_id =>
            { user := mkRef "document" doc_id, relation := "queried_documents",
              object := mkRef "rag_query" query.id }))

end GenAI

/-! ## Banking domain (`src/demos/banking-app/banking_demo.rs`) -/

namespace Banking

structure BankingUser where
  id : String
  name : String
  role : String
deriving DecidableEq, Repr

structure Bank where
  id : String
  name : String
  admins : List String
  managers : List String
deriving DecidableEq, Repr

structure Branch where
  id : String
  name : String
  parent_bank_id : String
  manager_id : Option String
  tellers : List String
deriving DecidableEq, Repr

/-- `balance : f64` is modelled as a pair of naturals; no check reads it. -/
structure Account where
  id : String
  account_number : String
  parent_branch_id : String
  owners : List String
  co_owners : List String
  balance : Nat × Nat
  account_type : String
deriving DecidableEq, Repr

/-- `amount`, `interest_rate : f64` modelled as pairs of naturals; unread
by every check. -/
structure Loan where
  id : String
  parent_branch_id : String
  borrower_id : String
  co_borrowers : List String
  loan_officer_id : String
  amount : Nat × Nat
  status : String
  interest_rate : Nat × Nat
deriving DecidableEq, Repr

/-- The `BankingDemo` struct (the unread `transactions` map is omitted;
no authorization path touches it). -/
structure State where
  users : List (String × BankingUser)
  banks : List (String × Bank)
  branches : List (String × Branch)
  accounts : List (String × Account)
  loans : List (String × Loan)
deriving DecidableEq, Repr

def is_account_authorized_user (g : State) (account_id user_id : String) : Bool :=
  match List.lookup account_id g.accounts with
  | some account =>
    account.owners.contains user_id || account.co_owners.contains user_id
  | none => false

def is_branch_teller (g : State) (account_id user_id : String) : Bool :=
  match List.lookup account_id g.accounts with
  | some account =>
    match List.lookup account.parent_branch_id g.branches with
    | some branch => branch.tellers.contains user_id
    | none => false
  | none => false

def is_branch_manager (g : State) (account_id user_id : String) : Bool :=
  match List.lookup account_id g.accounts with
  | some account =>
    match List.lookup account.parent_branch_id g.branches with
    | some branch => branch.manager_id == some user_id
    | none => false
  | none => false

def is_branch_employee (g : State) (account_id user_id : String) : Bool :=
  is_branch_teller g account_id user_id || is_branch_manager g account_id user_id

def is_loan_branch_manager (g : State) (loan_id user_id : String) : Bool :=
  match List.lookup loan_id g.loans with
  | some loan =>
    match List.lookup loan.parent_branch_id g.branches with
    | some branch => branch.manager_id == some user_id
    | none => false
  | none => false

def check_account_view_permission (g : State) (request : AuthorizationRequest) :
    AuthorizationResponse :=
  let account_id := seg 1 request.object
  let user_id := seg 1 request.user
  if is_account_authorized_user g account_id user_id then
    { allowed := true, reason := some "User is account owner/co-owner" }
  else if is_branch_employee g account_id user_id then
    { allowed := true, reason := some "User is branch employee" }
  else
    { allowed := false, reason := some "User not authorized to view account" }

def check_account_deposit_permission (g : State) (request : AuthorizationRequest) :
    AuthorizationResponse :=
  let account_id := seg 1 request.object
  let user_id := seg 1 request.user
  if is_account_authorized_user g account_id user_id || is_branch_teller g account_id user_id then
    { allowed := true, reason := some "User authorized for deposits" }
  else
    { allowed := false, reason := some "User not authorized for deposits" }

def check_account_withdraw_permission (g : State) (request : AuthorizationRequest) :
    AuthorizationResponse :=
  let account_id := seg 1 request.object
  let user_id := seg 1 request.user
  if is_account_authorized_user g account_id user_id || is_branch_manager g account_id user_id then
    { allowed := true, reason := some "User authorized for withdrawals" }
  else
    { allowed := false, reason := some "User not authorized for withdrawals" }

def check_account_transfer_permission (g : State) (request : AuthorizationRequest) :
    AuthorizationResponse :=
  let account_id := seg 1 request.object
  let user_id := seg 1 request.user
  if is_account_authorized_user g account_id user_id then
    { allowed := true, reason := some "User authorized for transfers" }
  else
    { allowed := false, reason := some "User not authorized for transfers" }

def check_loan_view_permission (g : State) (request : AuthorizationRequest) :
    AuthorizationResponse :=
  let loan_id := seg 1 request.object
  let user_id := seg 1 request.user
  match List.lookup loan_id g.loans with
  | some loan =>
    if loan.borrower_id == user_id || loan.co_borrowers.contains user_id ||
        loan.loan_officer_id == user_id || is_loan_branch_manager g loan_id user_id then
      { allowed := true, reason := some "User authorized to view loan" }
    else
      { allowed := false, reason := some "User not authorized to view loan" }
  | none => { allowed := false, reason := some "User not authorized to view loan" }

def check_loan_approve_permission (g : State) (request : AuthorizationRequest) :
    AuthorizationResponse :=
  let loan_id := seg 1 request.object
  let user_id := seg 1 request.user
  match List.lookup loan_id g.loans with
  | some loan =>
    if loan.loan_officer_id == user_id || is_loan_branch_manager g loan_id user_id then
      { allowed := true, reason := some "User authorized to approve loan" }
    else
      { allowed := false, reason := some "User not authorized to approve loan" }
  | none => { allowed := false, reason := some "User not authorized to approve loan" }

def check_loan_modify_permission (g : State) (request : AuthorizationRequest) :
    AuthorizationResponse :=
  let loan_id := seg 1 request.object
  let user_id := seg 1 request.user
  match List.lookup loan_id g.loans with
  | some loan =>
    if loan.loan_officer_id == user_id then
      { allowed := true, reason := some "User authorized to modify loan" }
    else
      { allowed := false, reason := some "User not authorized to modify loan" }
  | none => { allowed := false, reason := some "User not authorized to modify loan" }

def check_authorization (g : State) (request : AuthorizationRequest) :
    AuthorizationResponse :=
  let t := seg 0 request.object
  if request.relation = "can_view" ∧ t = "account" then
    check_account_view_permission g request
  else if request.relation = "can_deposit" ∧ t = "account" then
    check_account_deposit_permission g request
  else if request.relation = "can_withdraw" ∧ t = "account" then
    check_account_withdraw_permission g request
  else if request.relation = "can_transfer" ∧ t = "account" then
    check_account_transfer_permission g request
  else if request.relation = "can_view" ∧ t = "loan" then
    check_loan_view_permission g request
  else if request.relation = "can_approve" ∧ t = "loan" then
    check_loan_approve_permission g request
  else if request.relation = "can_modify" ∧ t = "loan" then
    check_loan_modify_permission g request
  else
    { allowed := false, reason := some "Unknown permission" }

/-- `setup_authorization_tuples`: the sequence of `tuples.push` calls, in
program order.  Only the bank `"bank1"` and the branch `"branch1"` are
consulted (hardcoded `get` calls); accounts and loans are iterated in
full. -/
def setup_authorization_tuples (g : State) : List OpenFGATuple :=
  (match List.lookup "bank1" g.banks with
   | some bank =>
     bank.admins.map (fun admin =>
       { user := mkRef "user" admin, relation := "admin", object := "bank:bank1" })
     ++ bank.managers.map (fun manager =>
       { user := mkRef "user" manager, relation := "manager", object := "bank:bank1" })
   | none => [])
  ++ (match List.lookup "branch1" g.branches with
   | some branch =>
     { user := "bank:bank1", relation := "parent_bank", object := "branch:branch1" }
     :: ((match branch.manager_id with
          | some manager_id =>
            [{ user := mkRef "user" manager_id, relation := "manager",
               object := "branch:branch1" }]
          | none => [])
     ++ branch.tellers.map (fun teller =>
       { user := mkRef "user" teller, relation := "teller", object := "branch:branch1" }))
   | none => [])
  ++ (g.accounts.map (fun p => p.2)).flatMap (fun account =>
       { user := mkRef "branch" account.parent_branch_id, relation := "parent_branch",
         object := mkRef "account" account.id }
       :: (account.owners.map (fun owner =>
            { user := mkRef "user" owner, relation := "owner",
              object := mkRef "account" account.id })
       ++ account.co_owners.map (fun co_owner =>
            { user := mkRef "user" co_owner, relation := "co_owner",
              object := mkRef "account" account.id })))
  ++ (g.loans.map (fun p => p.2)).flatMap (fun loan =>
       { user := mkRef "branch" loan.parent_branch_id, relation := "parent_branch",
         object := mkRef "loan" loan.id }
       :: { user := mkRef "user" loan.borrower_id, relation := "borrower",
            object := mkRef "loan" loan.id }
       :: (loan.co_borrowers.map (fun co_borrower =>
            { user := mkRef "user" co_borrower, relation := "co_borrower",
              object := mkRef "loan" loan.id })
       ++ [{ user := mkRef "user" loan.loan_officer_id, relation := "loan_officer",
             object := mkRef "loan" loan.id }]))

end Banking
/-! ## Demo data (`setup_demo_data` in both files)

Timestamps taken from `chrono::Utc::now()` are modelled as `""`; no check
reads them.  `0.95` is modelled as `(95, 100)`. -/

namespace GenAI

def aliceUser : GenAIUser where
  id := "alice"
  name := "Alice Smith"
  email := "alice@company.com"
  role := "curator"

def bobUser : GenAIUser where
  id := "bob"
  name := "Bob Johnson"
  email := "bob@company.com"
  role := "contributor"

def charlieUser : GenAIUser where
  id := "charlie"
  name := "Charlie Brown"
  email := "charlie@company.com"
  role := "reader"

def dianaUser : GenAIUser where
  id := "diana"
  name := "Diana Prince"
  email := "diana@company.com"
  role := "admin"

def eveUser : GenAIUser where
  id := "eve"
  name := "Eve Adams"
  email := "eve@company.com"
  role := "model_operator"

def org1 : Organization where
  id := "org1"
  name := "TechCorp AI Division"
  admins := ["diana"]
  members := ["alice", "bob", "charlie", "eve"]

def kb1 : KnowledgeBase where
  id := "kb1"
  name := "Technical Documentation"
  description := "Technical documentation and best practices"
  parent_org_id := "org1"
  curators := ["alice"]
  contributors := ["bob"]
  readers := ["charlie"]

def doc1 : Document where
  id := "doc1"
  title := "API Documentation"
  content := "Comprehensive API documentation for the system"
  parent_kb_id := "kb1"
  owner_id := "alice"
  editors := ["bob"]
  viewers := ["charlie"]
  tags := ["api", "documentation"]
  created_at := ""
  updated_at := ""

def doc2 : Document where
  id := "doc2"
  title := "Security Guidelines"
  content := "Security best practices and guidelines"
  parent_kb_id := "kb1"
  owner_id := "alice"
  editors := []
  viewers := ["bob", "charlie"]
  tags := ["security", "guidelines"]
  created_at := ""
  updated_at := ""

def doc3 : Document where
  id := "doc3"
  title := "Internal Process"
  content := "Internal company processes - confidential"
  parent_kb_id := "kb1"
  owner_id := "diana"
  editors := []
  viewers := []
  tags := ["internal", "confidential"]
  created_at := ""
  updated_at := ""

def model1 : AIModel where
  id := "model1"
  name := "RAG-GPT-4"
  model_type := "language_model"
  parent_org_id := "org1"
  operators := ["eve"]
  users := ["alice", "bob", "charlie"]
  config := [("max_tokens", "4000"), ("temperature", "0.7")]

def session1 : RAGSession where
  id := "session1"
  name := "API Help Session"
  parent_kb_id := "kb1"
  parent_model_id := "model1"
  owner_id := "bob"
  participants := ["charlie"]
  created_at := ""
  status := "active"

def query1 : RAGQuery where
  id := "query1"
  parent_session_id := "session1"
  initiated_by := "bob"
  query_text := "How do I authenticate with the API?"
  queried_documents := ["doc1"]
  response_text := "To authenticate with the API, you need to use OAuth 2.0..."
  timestamp := ""
  confidence_score := (95, 100)

/-- The state built by `GenAIRAGDemo::new()` (insertion order of the
`add_*` calls in `setup_demo_data`). -/
def demoState : State where
  users :=
    [("alice", aliceUser), ("bob", bobUser), ("charlie", charlieUser),
     ("diana", dianaUser), ("eve", eveUser)]
  organizations := [("org1", org1)]
  knowledge_bases := [("kb1", kb1)]
  documents := [("doc1", doc1), ("doc2", doc2), ("doc3", doc3)]
  ai_models := [("model1", model1)]
  rag_sessions := [("session1", session1)]
  rag_queries := [("query1", query1)]

/-- The 16 `(permission, object type)` pairs dispatched by
`check_authorization`. -/
def dispatchedPairs : List (String × String) :=
  [("can_view", "knowledge_base"), ("can_contribute", "knowledge_base"),
   ("can_curate", "knowledge_base"), ("can_admin", "knowledge_base"),
   ("can_view", "document"), ("can_edit", "document"),
   ("can_delete", "document"), ("can_use_in_rag", "document"),
   ("can_use", "ai_model"), ("can_configure", "ai_model"),
   ("can_admin", "ai_model"),
   ("can_view", "rag_session"), ("can_query", "rag_session"),
   ("can_access_documents", "rag_session"),
   ("can_view", "rag_query"), ("can_access_results", "rag_query")]

end GenAI

namespace Banking

def bankAlice : BankingUser where
  id := "alice"
  name := "Alice Johnson"
  role := "customer"

def bankBob : BankingUser where
  id := "bob"
  name := "Bob Smith"
  role := "customer"

def bankCharlie : BankingUser where
  id := "charlie"
  name := "Charlie Brown"
  role := "teller"

def bankDiana : BankingUser where
  id := "diana"
  name := "Diana Prince"
  role := "manager"

def bankEve : BankingUser where
  id := "eve"
  name := "Eve Adams"
  role := "loan_officer"

def bankFrank : BankingUser where
  id := "frank"
  name := "Frank Miller"
  role := "admin"

def bank1 : Bank where
  id := "bank1"
  name := "First National Bank"
  admins := ["frank"]
  managers := ["diana"]

def branch1 : Branch where
  id := "branch1"
  name := "Downtown Branch"
  parent_bank_id := "bank1"
  manager_id := some "diana"
  tellers := ["charlie"]

def acc1 : Account where
  id := "acc1"
  account_number := "1001"
  parent_branch_id := "branch1"
  owners := ["alice"]
  co_owners := []
  balance := (5000, 1)
  account_type := "checking"

def acc2 : Account where
  id := "acc2"
  account_number := "1002"
  parent_branch_id := "branch1"
  owners := ["bob"]
  co_owners := ["alice"]
  balance := (3000, 1)
  account_type := "savings"

def loan1 : Loan where
  id := "loan1"
  parent_branch_id := "branch1"
  borrower_id := "alice"
  co_borrowers := ["bob"]
  loan_officer_id := "eve"
  amount := (50000, 1)
  status := "pending"
  interest_rate := (35, 10)

/-- The state built by `BankingDemo::new()`. -/
def demoState : State where
  users :=
    [("alice", bankAlice), ("bob", bankBob), ("charlie", bankCharlie),
     ("diana", bankDiana), ("eve", bankEve), ("frank", bankFrank)]
  banks := [("bank1", bank1)]
  branches := [("branch1", branch1)]
  accounts := [("acc1", acc1), ("acc2", acc2)]
  loans := [("loan1", loan1)]

/-- The 7 `(permission, object type)` pairs dispatched by
`check_authorization`. -/
def dispatchedPairs : List (String × String) :=
  [("can_view", "account"), ("can_deposit", "account"),
   ("can_withdraw", "account"), ("can_transfer", "account"),
   ("can_view", "loan"), ("can_approve", "loan"), ("can_modify", "loan")]

end Banking

/-! ## Grant-addition operations and graph order (for the monotonicity
claim)

`addMember slot w g` adds one member `w` to one named relation list of one
entity of the graph, leaving every other field unchanged — the "adding a
member to a relation list" operation quantified over by the spec. -/

def updAssoc {T : Type} (m : List (String × T)) (k : String) (f : T → T) :
    List (String × T) :=
  m.map (fun p => if p.1 = k then (p.1, f p.2) else p)

namespace GenAI

/-- One relation list of one entity of a GenAI graph. -/
inductive Slot where
  | orgAdmins (id : String)
  | orgMembers (id : String)
  | kbCurators (id : String)
  | kbContributors (id : String)
  | kbReaders (id : String)
  | docEditors (id : String)
  | docViewers (id : String)
  | modelOperators (id : String)
  | modelUsers (id : String)
  | sessionParticipants (id : String)
  | queryQueriedDocuments (id : String)
deriving DecidableEq, Repr

def addMember : Slot → String → State → State
  | .orgAdmins i, w, g =>
    { g with organizations :=
        updAssoc g.organizations i (fun o => { o with admins := o.admins ++ [w] }) }
  | .orgMembers i, w, g =>
    { g with organizations :=
        updAssoc g.organizations i (fun o => { o with members := o.members ++ [w] }) }
  | .kbCurators i, w, g =>
    { g with knowledge_bases :=
        updAssoc g.knowledge_bases i (fun kb => { kb with curators := kb.curators ++ [w] }) }
  | .kbContributors i, w, g =>
    { g with knowledge_bases :=
        updAssoc g.knowledge_bases i (fun kb => { kb with contributors := kb.contributors ++ [w] }) }
  | .kbReaders i, w, g =>
    { g with knowledge_bases :=
        updAssoc g.knowledge_bases i (fun kb => { kb with readers := kb.readers ++ [w] }) }
  | .docEditors i, w, g =>
    { g with documents :=
        updAssoc g.documents i (fun doc => { doc with editors := doc.editors ++ [w] }) }
  | .docViewers i, w, g =>
    { g with documents :=
        updAssoc g.documents i (fun doc => { doc with viewers := doc.viewers ++ [w] }) }
  | .modelOperators i, w, g =>
    { g with ai_models :=
        updAssoc g.ai_models i (fun m => { m with operators := m.operators ++ [w] }) }
  | .modelUsers i, w, g =>
    { g with ai_models :=
        updAssoc g.ai_models i (fun m => { m with users := m.users ++ [w] }) }
  | .sessionParticipants i, w, g =>
    { g with rag_sessions :=
        updAssoc g.rag_sessions i (fun s => { s with participants := s.participants ++ [w] }) }
  | .queryQueriedDocuments i, w, g =>
    { g with rag_queries :=
        updAssoc g.rag_queries i (fun q => { q with queried_documents := q.queried_documents ++ [w] }) }

/-- Does the slot name the `queried_documents` list of a RAG query? -/
def Slot.isQueriedDocs : Slot → Bool
  | .queryQueriedDocuments _ => true
  | _ => false

end GenAI

namespace Banking

/-- One relation list of one entity of a banking graph. -/
inductive Slot where
  | bankAdmins (id : String)
  | bankManagers (id : String)
  | branchTellers (id : String)
  | accountOwners (id : String)
  | accountCoOwners (id : String)
  | loanCoBorrowers (id : String)
deriving DecidableEq, Repr

def addMember : Slot → String → State → State
  | .bankAdmins i, w, g =>
    { g with banks := updAssoc g.banks i (fun b => { b with admins := b.admins ++ [w] }) }
  | .bankManagers i, w, g =>
    { g with banks := updAssoc g.banks i (fun b => { b with managers := b.managers ++ [w] }) }
  | .branchTellers i, w, g =>
    { g with branches :=
        updAssoc g.branches i (fun b => { b with tellers := b.tellers ++ [w] }) }
  | .accountOwners i, w, g =>
    { g with accounts :=
        updAssoc g.accounts i (fun a => { a with owners := a.owners ++ [w] }) }
  | .accountCoOwners i, w, g =>
    { g with accounts :=
        updAssoc g.accounts i (fun a => { a with co_owners := a.co_owners ++ [w] }) }
  | .loanCoBorrowers i, w, g =>
    { g with loans :=
        updAssoc g.loans i (fun l => { l with co_borrowers := l.co_borrowers ++ [w] }) }

end Banking

/-- List inclusion by membership (relation lists are sets in effect). -/
def SubL (l l' : List String) : Prop := ∀ x : String, x ∈ l → x ∈ l'

/-- Lift a relation to `Option`, requiring equal definedness. -/
def OptRel {T : Type} (R : T → T → Prop) : Option T → Option T → Prop
  | none, none => True
  | some a, some b => R a b
  | _, _ => False

namespace GenAI

/-- `o ≤ o'` on organizations: the relation lists may only grow.  Only the
fields read by some permission check are constrained. -/
def OrgLE (o o' : Organization) : Prop :=
  SubL o.admins o'.admins ∧ SubL o.members o'.members

def KbLE (kb kb' : KnowledgeBase) : Prop :=
  kb'.parent_org_id = kb.parent_org_id ∧
  SubL kb.curators kb'.curators ∧ SubL kb.contributors kb'.contributors ∧
  SubL kb.readers kb'.readers

def DocLE (d d' : Document) : Prop :=
  d'.owner_id = d.owner_id ∧ d'.parent_kb_id = d.parent_kb_id ∧
  SubL d.editors d'.editors ∧ SubL d.viewers d'.viewers

def ModelLE (m m' : AIModel) : Prop :=
  m'.parent_org_id = m.parent_org_id ∧
  SubL m.operators m'.operators ∧ SubL m.users m'.users

def SessLE (s s' : RAGSession) : Prop :=
  s'.owner_id = s.owner_id ∧ s'.parent_kb_id = s.parent_kb_id ∧
  SubL s.participants s'.participants

/-- `g ≤ g'` on GenAI graphs: same entities, user-relation lists may only
grow, and the `queried_documents` lists of queries are unchanged. -/
structure StateLE (g g' : State) : Prop where
  orgs : ∀ k, OptRel OrgLE (List.lookup k g.organizations) (List.lookup k g'.organizations)
  kbs : ∀ k, OptRel KbLE (List.lookup k g.knowledge_bases) (List.lookup k g'.knowledge_bases)
  docs : ∀ k, OptRel DocLE (List.lookup k g.documents) (List.lookup k g'.documents)
  models : ∀ k, OptRel ModelLE (List.lookup k g.ai_models) (List.lookup k g'.ai_models)
  sessions : ∀ k, OptRel SessLE (List.lookup k g.rag_sessions) (List.lookup k g'.rag_sessions)
  queries : ∀ k, List.lookup k g.rag_queries = List.lookup k g'.rag_queries

end GenAI

namespace Banking

def BranchLE (b b' : Branch) : Prop :=
  b'.manager_id = b.manager_id ∧ SubL b.tellers b'.tellers

def AccountLE (a a' : Account) : Prop :=
  a'.parent_branch_id = a.parent_branch_id ∧
  SubL a.owners a'.owners ∧ SubL a.co_owners a'.co_owners

def LoanLE (l l' : Loan) : Prop :=
  l'.borrower_id = l.borrower_id ∧ l'.loan_officer_id = l.loan_officer_id ∧
  l'.parent_branch_id = l.parent_branch_id ∧ SubL l.co_borrowers l'.co_borrowers

/-- `g ≤ g'` on banking graphs.  The `banks` map is never read by any
permission check, so it is unconstrained. -/
structure StateLE (g g' : State) : Prop where
  branches : ∀ k, OptRel BranchLE (List.lookup k g.branches) (List.lookup k g'.branches)
  accounts : ∀ k, OptRel AccountLE (List.lookup k g.accounts) (List.lookup k g'.accounts)
  loans : ∀ k, OptRel LoanLE (List.lookup k g.loans) (List.lookup k g'.loans)

end Banking

/-! ## Concrete states used by counterexamples -/

namespace GenAI

def emptyState : State where
  users := []
  organizations := []
  knowledge_bases := []
  documents := []
  ai_models := []
  rag_sessions := []
  rag_queries := []

/-- A corrupted graph in which every parent reference points back to the
id `"d"` itself: document `d` names `d` as its knowledge base, knowledge
base `d` names `d` as its organization — a cyclic chain of parent ids. -/
def cycDoc : Document where
  id := "d"
  title := "t"
  content := "c"
  parent_kb_id := "d"
  owner_id := "o"
  editors := []
  viewers := []
  tags := []
  created_at := ""
  updated_at := ""

def cycKb : KnowledgeBase where
  id := "d"
  name := "n"
  description := ""
  parent_org_id := "d"
  curators := []
  contributors := []
  readers := []

def cycOrg : Organization where
  id := "d"
  name := "n"
  admins := []
  members := []

def cyclicState : State where
  users := []
  organizations := [("d", cycOrg)]
  knowledge_bases := [("d", cycKb)]
  documents := [("d", cycDoc)]
  ai_models := []
  rag_sessions := []
  rag_queries := []

/-- A graph whose only query was initiated by `"u"` and cites no
documents: `u` may access its results. -/
def monoQuery : RAGQuery where
  id := "q1"
  parent_session_id := "s1"
  initiated_by := "u"
  query_text := ""
  queried_documents := []
  response_text := "r"
  timestamp := ""
  confidence_score := (1, 1)

def monoState : State where
  users := []
  organizations := []
  knowledge_bases := []
  documents := []
  ai_models := []
  rag_sessions := []
  rag_queries := [("q1", monoQuery)]

/-- A document whose id contains a `:` separator; owned by `"u"`. -/
def colonDoc : Document where
  id := "d:x"
  title := "t"
  content := "c"
  parent_kb_id := "kb1"
  owner_id := "u"
  editors := []
  viewers := []
  tags := []
  created_at := ""
  updated_at := ""

def colonState : State where
  users := []
  organizations := []
  knowledge_bases := []
  documents := [("d:x", colonDoc)]
  ai_models := []
  rag_sessions := []
  rag_queries := []

/-- An organization stored under the id `"org2"`, with one member; the
tuple materializer only consults `"org1"`. -/
def org2 : Organization where
  id := "org2"
  name := "Second Org"
  admins := []
  members := ["m"]

def org2State : State where
  users := []
  organizations := [("org2", org2)]
  knowledge_bases := []
  documents := []
  ai_models := []
  rag_sessions := []
  rag_queries := []

end GenAI

/-! ## Theorems: reference-string parsing -/

theorem splitCh_ne_nil (l : List Char) : splitCh l ≠ [] := by
  induction l with
  | nil => simp [splitCh]
  | cons c cs ih =>
    simp only [splitCh]
    split
    · simp
    · split
      · simp
      · simp

theorem splitCh_of_not_mem (l : List Char) (h : ':' ∉ l) : splitCh l = [l] := by
  induction l with
  | nil => rfl
  | cons c cs ih =>
    simp only [List.mem_cons, not_or] at h
    simp only [splitCh]
    rw [if_neg (fun hc => h.1 hc.symm)]
    rw [ih h.2]

theorem splitCh_append (pre rest : List Char) (h : ':' ∉ pre) :
    splitCh (pre ++ ':' :: rest) = pre :: splitCh rest := by
  induction pre with
  | nil => simp [splitCh]
  | cons c cs ih =>
    simp only [List.mem_cons, not_or] at h
    simp only [List.cons_append, splitCh]
    rw [if_neg (fun hc => h.1 hc.symm)]
    rw [show cs.append (':' :: rest) = cs ++ ':' :: rest from rfl, ih h.2]

theorem data_mkRef (t i : String) : (mkRef t i).data = t.data ++ ':' :: i.data := by
  cases t with
  | mk td =>
    cases i with
    | mk id =>
      show (String.mk td ++ String.mk [':'] ++ String.mk id).data = td ++ ':' :: id
      show td ++ [':'] ++ id = td ++ ':' :: id
      simp

theorem seg_zero_of_not_mem (s : String) (h : ':' ∉ s.data) : seg 0 s = s := by
  unfold seg
  rw [splitCh_of_not_mem s.data h]
  rfl

theorem seg_zero_mkRef (t i : String) (h : ':' ∉ t.data) : seg 0 (mkRef t i) = t := by
  unfold seg
  rw [data_mkRef, splitCh_append t.data i.data h]
  rfl

theorem seg_one_mkRef (t i : String) (h : ':' ∉ t.data) : seg 1 (mkRef t i) = seg 0 i := by
  unfold seg
  rw [data_mkRef, splitCh_append t.data i.data h]
  rfl

/-! ## Theorems: claim C1 — unknown (permission, object type) pairs deny -/

/-- Claim C1: for every authorization request whose `(permission, object
type)` pair has no registered rule list (it is not one of the dispatched
pairs), `check_authorization` returns `allowed = false` with reason
"Unknown permission", in both the banking and the GenAI domain. -/
theorem unknown_permission_fails_closed :
    (∀ (g : Banking.State) (req : AuthorizationRequest),
      (req.relation, seg 0 req.object) ∉ Banking.dispatchedPairs →
      Banking.check_authorization g req =
        { allowed := false, reason := some "Unknown permission" }) ∧
    (∀ (g : GenAI.State) (req : AuthorizationRequest),
      (req.relation, seg 0 req.object) ∉ GenAI.dispatchedPairs →
      GenAI.check_authorization g req =
        { allowed := false, reason := some "Unknown permission" }) := by
  constructor
  · intro g req h
    simp only [Banking.dispatchedPairs, List.mem_cons, List.not_mem_nil, or_false,
      Prod.mk.injEq, not_or] at h
    obtain ⟨h1, h2, h3, h4, h5, h6, h7⟩ := h
    simp only [Banking.check_authorization]
    rw [if_neg h1, if_neg h2, if_neg h3, if_neg h4, if_neg h5, if_neg h6, if_neg h7]
  · intro g req h
    simp only [GenAI.dispatchedPairs, List.mem_cons, List.not_mem_nil, or_false,
      Prod.mk.injEq, not_or] at h
    obtain ⟨h1, h2, h3, h4, h5, h6, h7, h8, h9, h10, h11, h12, h13, h14, h15, h16⟩ := h
    simp only [GenAI.check_authorization]
    rw [if_neg h1, if_neg h2, if_neg h3, if_neg h4, if_neg h5, if_neg h6, if_neg h7,
      if_neg h8, if_neg h9, if_neg h10, if_neg h11, if_neg h12, if_neg h13, if_neg h14,
      if_neg h15, if_neg h16]

/-- Witness for C1 at a concrete unknown pair in each domain. -/
theorem unknown_permission_fails_closed_witness :
    Banking.check_authorization Banking.demoState
      { user := "user:alice", relation := "can_fly", object := "account:acc1" } =
      { allowed := false, reason := some "Unknown permission" } ∧
    GenAI.check_authorization GenAI.demoState
      { user := "user:alice", relation := "can_view", object := "spaceship:x" } =
      { allowed := false, reason := some "Unknown permission" } :=
  ⟨unknown_permission_fails_closed.1 Banking.demoState _ (by decide),
   unknown_permission_fails_closed.2 GenAI.demoState _ (by decide)⟩

/-! ## Theorems: claim C2 — the check is total and folds unresolvable
references into deny -/

theorem banking_view_denies_of_missing (g : Banking.State) (req : AuthorizationRequest)
    (h : List.lookup (seg 1 req.object) g.accounts = none) :
    (Banking.check_account_view_permission g req).allowed = false := by
  simp [Banking.check_account_view_permission, Banking.is_account_authorized_user,
    Banking.is_branch_employee, Banking.is_branch_teller, Banking.is_branch_manager, h]

theorem banking_deposit_denies_of_missing (g : Banking.State) (req : AuthorizationRequest)
    (h : List.lookup (seg 1 req.object) g.accounts = none) :
    (Banking.check_account_deposit_permission g req).allowed = false := by
  simp [Banking.check_account_deposit_permission, Banking.is_account_authorized_user,
    Banking.is_branch_teller, h]

theorem banking_withdraw_denies_of_missing (g : Banking.State) (req : AuthorizationRequest)
    (h : List.lookup (seg 1 req.object) g.accounts = none) :
    (Banking.check_account_withdraw_permission g req).allowed = false := by
  simp [Banking.check_account_withdraw_permission, Banking.is_account_authorized_user,
    Banking.is_branch_manager, h]

theorem banking_transfer_denies_of_missing (g : Banking.State) (req : AuthorizationRequest)
    (h : List.lookup (seg 1 req.object) g.accounts = none) :
    (Banking.check_account_transfer_permission g req).allowed = false := by
  simp [Banking.check_account_transfer_permission, Banking.is_account_authorized_user, h]

theorem banking_loan_view_denies_of_missing (g : Banking.State) (req : AuthorizationRequest)
    (h : List.lookup (seg 1 req.object) g.loans = none) :
    (Banking.check_loan_view_permission g req).allowed = false := by
  simp [Banking.check_loan_view_permission, h]

theorem banking_loan_approve_denies_of_missing (g : Banking.State) (req : AuthorizationRequest)
    (h : List.lookup (seg 1 req.object) g.loans = none) :
    (Banking.check_loan_approve_permission g req).allowed = false := by
  simp [Banking.check_loan_approve_permission, h]

theorem banking_loan_modify_denies_of_missing (g : Banking.State) (req : AuthorizationRequest)
    (h : List.lookup (seg 1 req.object) g.loans = none) :
    (Banking.check_loan_modify_permission g req).allowed = false := by
  simp [Banking.check_loan_modify_permission, h]

theorem genai_kb_view_denies_of_missing (g : GenAI.State) (req : AuthorizationRequest)
    (h : List.lookup (seg 1 req.object) g.knowledge_bases = none) :
    (GenAI.check_kb_view_permission g req).allowed = false := by
  simp [GenAI.check_kb_view_permission, GenAI.is_kb_curator, GenAI.is_kb_contributor,
    GenAI.is_kb_reader, GenAI.is_org_member_for_kb, h]

theorem genai_kb_contribute_denies_of_missing (g : GenAI.State) (req : AuthorizationRequest)
    (h : List.lookup (seg 1 req.object) g.knowledge_bases = none) :
    (GenAI.check_kb_contribute_permission g req).allowed = false := by
  simp [GenAI.check_kb_contribute_permission, GenAI.is_kb_curator, GenAI.is_kb_contributor, h]

theorem genai_kb_curate_denies_of_missing (g : GenAI.State) (req : AuthorizationRequest)
    (h : List.lookup (seg 1 req.object) g.knowledge_bases = none) :
    (GenAI.check_kb_curate_permission g req).allowed = false := by
  simp [GenAI.check_kb_curate_permission, GenAI.is_kb_curator, h]

theorem genai_kb_admin_denies_of_missing (g : GenAI.State) (req : AuthorizationRequest)
    (h : List.lookup (seg 1 req.object) g.knowledge_bases = none) :
    (GenAI.check_kb_admin_permission g req).allowed = false := by
  simp [GenAI.check_kb_admin_permission, GenAI.is_kb_curator, GenAI.is_org_admin_for_kb, h]

theorem genai_doc_view_denies_of_missing (g : GenAI.State) (req : AuthorizationRequest)
    (h : List.lookup (seg 1 req.object) g.documents = none) :
    (GenAI.check_document_view_permission g req).allowed = false := by
  simp [GenAI.check_document_view_permission, GenAI.is_document_owner,
    GenAI.is_document_editor, GenAI.is_document_viewer, h]

theorem genai_doc_edit_denies_of_missing (g : GenAI.State) (req : AuthorizationRequest)
    (h : List.lookup (seg 1 req.object) g.documents = none) :
    (GenAI.check_document_edit_permission g req).allowed = false := by
  simp [GenAI.check_document_edit_permission, GenAI.is_document_owner,
    GenAI.is_document_editor, GenAI.can_contribute_to_kb_for_document, h]

theorem genai_doc_delete_denies_of_missing (g : GenAI.State) (req : AuthorizationRequest)
    (h : List.lookup (seg 1 req.object) g.documents = none) :
    (GenAI.check_document_delete_permission g req).allowed = false := by
  simp [GenAI.check_document_delete_permission, GenAI.is_document_owner,
    GenAI.can_curate_kb_for_document, h]

theorem genai_model_use_denies_of_missing (g : GenAI.State) (req : AuthorizationRequest)
    (h : List.lookup (seg 1 req.object) g.ai_models = none) :
    (GenAI.check_model_use_permission g req).allowed = false := by
  simp [GenAI.check_model_use_permission, GenAI.is_model_operator, GenAI.is_model_user,
    GenAI.is_org_member_for_model, h]

theorem genai_model_configure_denies_of_missing (g : GenAI.State) (req : AuthorizationRequest)
    (h : List.lookup (seg 1 req.object) g.ai_models = none) :
    (GenAI.check_model_configure_permission g req).allowed = false := by
  simp [GenAI.check_model_configure_permission, GenAI.is_model_operator,
    GenAI.is_org_admin_for_model, h]

theorem genai_model_admin_denies_of_missing (g : GenAI.State) (req : AuthorizationRequest)
    (h : List.lookup (seg 1 req.object) g.ai_models = none) :
    (GenAI.check_model_admin_permission g req).allowed = false := by
  simp [GenAI.check_model_admin_permission, GenAI.is_model_operator, h]

theorem genai_session_view_denies_of_missing (g : GenAI.State) (req : AuthorizationRequest)
    (h : List.lookup (seg 1 req.object) g.rag_sessions = none) :
    (GenAI.check_session_view_permission g req).allowed = false := by
  simp [GenAI.check_session_view_permission, GenAI.is_session_owner,
    GenAI.is_session_participant, h]

theorem genai_session_docs_denies_of_missing (g : GenAI.State) (req : AuthorizationRequest)
    (h : List.lookup (seg 1 req.object) g.rag_sessions = none) :
    (GenAI.check_session_document_access_permission g req).allowed = false := by
  simp [GenAI.check_session_document_access_permission, GenAI.is_session_owner,
    GenAI.is_session_participant, h]

theorem genai_query_view_denies_of_missing (g : GenAI.State) (req : AuthorizationRequest)
    (h : List.lookup (seg 1 req.object) g.rag_queries = none) :
    (GenAI.check_query_view_permission g req).allowed = false := by
  simp [GenAI.check_query_view_permission, GenAI.is_query_initiator,
    GenAI.can_view_query_session, h]

theorem genai_query_results_denies_of_missing (g : GenAI.State) (req : AuthorizationRequest)
    (h : List.lookup (seg 1 req.object) g.rag_queries = none) :
    (GenAI.check_query_results_permission g req).allowed = false := by
  simp [GenAI.check_query_results_permission, genai_query_view_denies_of_missing g req h]

/-- Claim C2: `check_authorization` is pure and total — it is a function
into `AuthorizationResponse`, whose `allowed` field is always `true` or
`false` — and any request whose object reference does not resolve to a
stored entity (a dangling id, or the empty id produced by a reference
with no `type:id` separator) is denied, in both domains. -/
theorem check_total_and_unresolved_denied :
    (∀ (g : Banking.State) (req : AuthorizationRequest),
      (Banking.check_authorization g req).allowed = true ∨
      (Banking.check_authorization g req).allowed = false) ∧
    (∀ (g : GenAI.State) (req : AuthorizationRequest),
      (GenAI.check_authorization g req).allowed = true ∨
      (GenAI.check_authorization g req).allowed = false) ∧
    (∀ (g : Banking.State) (req : AuthorizationRequest),
      List.lookup (seg 1 req.object) g.accounts = none →
      List.lookup (seg 1 req.object) g.loans = none →
      (Banking.check_authorization g req).allowed = false) ∧
    (∀ (g : GenAI.State) (req : AuthorizationRequest),
      List.lookup (seg 1 req.object) g.knowledge_bases = none →
      List.lookup (seg 1 req.object) g.documents = none →
      List.lookup (seg 1 req.object) g.ai_models = none →
      List.lookup (seg 1 req.object) g.rag_sessions = none →
      List.lookup (seg 1 req.object) g.rag_queries = none →
      (GenAI.check_authorization g req).allowed = false) := by
  refine ⟨fun g req => ?_, fun g req => ?_, fun g req ha hl => ?_, fun g req hk hd hm hs hq => ?_⟩
  · cases (Banking.check_authorization g req).allowed <;> simp
  · cases (GenAI.check_authorization g req).allowed <;> simp
  · simp only [Banking.check_authorization]
    repeat' split
    · exact banking_view_denies_of_missing g req ha
    · exact banking_deposit_denies_of_missing g req ha
    · exact banking_withdraw_denies_of_missing g req ha
    · exact banking_transfer_denies_of_missing g req ha
    · exact banking_loan_view_denies_of_missing g req hl
    · exact banking_loan_approve_denies_of_missing g req hl
    · exact banking_loan_modify_denies_of_missing g req hl
    · rfl
  · simp only [GenAI.check_authorization]
    by_cases h1 : req.relation = "can_view" ∧ seg 0 req.object = "knowledge_base"
    · rw [if_pos h1]
      exact genai_kb_view_denies_of_missing g req hk
    rw [if_neg h1]
    by_cases h2 : req.relation = "can_contribute" ∧ seg 0 req.object = "knowledge_base"
    · rw [if_pos h2]
      exact genai_kb_contribute_denies_of_missing g req hk
    rw [if_neg h2]
    by_cases h3 : req.relation = "can_curate" ∧ seg 0 req.object = "knowledge_base"
    · rw [if_pos h3]
      exact genai_kb_curate_denies_of_missing g req hk
    rw [if_neg h3]
    by_cases h4 : req.relation = "can_admin" ∧ seg 0 req.object = "knowledge_base"
    · rw [if_pos h4]
      exact genai_kb_admin_denies_of_missing g req hk
    rw [if_neg h4]
    by_cases h5 : req.relation = "can_view" ∧ seg 0 req.object = "document"
    · rw [if_pos h5]
      exact genai_doc_view_denies_of_missing g req hd
    rw [if_neg h5]
    by_cases h6 : req.relation = "can_edit" ∧ seg 0 req.object = "document"
    · rw [if_pos h6]
      exact genai_doc_edit_denies_of_missing g req hd
    rw [if_neg h6]
    by_cases h7 : req.relation = "can_delete" ∧ seg 0 req.object = "document"
    · rw [if_pos h7]
      exact genai_doc_delete_denies_of_missing g req hd
    rw [if_neg h7]
    by_cases h8 : req.relation = "can_use_in_rag" ∧ seg 0 req.object = "document"
    · rw [if_pos h8]
      exact genai_doc_view_denies_of_missing g req hd
    rw [if_neg h8]
    by_cases h9 : req.relation = "can_use" ∧ seg 0 req.object = "ai_model"
    · rw [if_pos h9]
      exact genai_model_use_denies_of_missing g req hm
    rw [if_neg h9]
    by_cases h10 : req.relation = "can_configure" ∧ seg 0 req.object = "ai_model"
    · rw [if_pos h10]
      exact genai_model_configure_denies_of_missing g req hm
    rw [if_neg h10]
    by_cases h11 : req.relation = "can_admin" ∧ seg 0 req.object = "ai_model"
    · rw [if_pos h11]
      exact genai_model_admin_denies_of_missing g req hm
    rw [if_neg h11]
    by_cases h12 : req.relation = "can_view" ∧ seg 0 req.object = "rag_session"
    · rw [if_pos h12]
      exact genai_session_view_denies_of_missing g req hs
    rw [if_neg h12]
    by_cases h13 : req.relation = "can_query" ∧ seg 0 req.object = "rag_session"
    · rw [if_pos h13]
      exact genai_session_view_denies_of_missing g req hs
    rw [if_neg h13]
    by_cases h14 : req.relation = "can_access_documents" ∧ seg 0 req.object = "rag_session"
    · rw [if_pos h14]
      exact genai_session_docs_denies_of_missing g req hs
    rw [if_neg h14]
    by_cases h15 : req.relation = "can_view" ∧ seg 0 req.object = "rag_query"
    · rw [if_pos h15]
      exact genai_query_view_denies_of_missing g req hq
    rw [if_neg h15]
    by_cases h16 : req.relation = "can_access_results" ∧ seg 0 req.object = "rag_query"
    · rw [if_pos h16]
      exact genai_query_results_denies_of_missing g req hq
    rw [if_neg h16]

/-- Witness for C2: a malformed reference (no separator) and a dangling
reference, each denied on the demo states. -/
theorem check_total_and_unresolved_denied_witness :
    (Banking.check_authorization Banking.demoState
      { user := "user:alice", relation := "can_view", object := "account" }).allowed = false ∧
    (GenAI.check_authorization GenAI.demoState
      { user := "user:bob", relation := "can_view", object := "document:ghost" }).allowed
      = false :=
  ⟨check_total_and_unresolved_denied.2.2.1 Banking.demoState _ (by decide) (by decide),
   check_total_and_unresolved_denied.2.2.2 GenAI.demoState _ (by decide) (by decide)
     (by decide) (by decide) (by decide)⟩

/-! ## Theorems: claim C3 — there is no recursion-depth counter; no check
ever returns reason "recursion limit exceeded" -/

theorem banking_view_reason (g : Banking.State) (req : AuthorizationRequest) :
    (Banking.check_account_view_permission g req).reason ≠ some "recursion limit exceeded" := by
  simp only [Banking.check_account_view_permission]
  repeat' split
  all_goals simp

theorem banking_deposit_reason (g : Banking.State) (req : AuthorizationRequest) :
    (Banking.check_account_deposit_permission g req).reason ≠ some "recursion limit exceeded" := by
  simp only [Banking.check_account_deposit_permission]
  repeat' split
  all_goals simp

theorem banking_withdraw_reason (g : Banking.State) (req : AuthorizationRequest) :
    (Banking.check_account_withdraw_permission g req).reason ≠ some "recursion limit exceeded" := by
  simp only [Banking.check_account_withdraw_permission]
  repeat' split
  all_goals simp

theorem banking_transfer_reason (g : Banking.State) (req : AuthorizationRequest) :
    (Banking.check_account_transfer_permission g req).reason ≠ some "recursion limit exceeded" := by
  simp only [Banking.check_account_transfer_permission]
  repeat' split
  all_goals simp

theorem banking_loan_view_reason (g : Banking.State) (req : AuthorizationRequest) :
    (Banking.check_loan_view_permission g req).reason ≠ some "recursion limit exceeded" := by
  simp only [Banking.check_loan_view_permission]
  repeat' split
  all_goals simp

theorem banking_loan_approve_reason (g : Banking.State) (req : AuthorizationRequest) :
    (Banking.check_loan_approve_permission g req).reason ≠ some "recursion limit exceeded" := by
  simp only [Banking.check_loan_approve_permission]
  repeat' split
  all_goals simp

theorem banking_loan_modify_reason (g : Banking.State) (req : AuthorizationRequest) :
    (Banking.check_loan_modify_permission g req).reason ≠ some "recursion limit exceeded" := by
  simp only [Banking.check_loan_modify_permission]
  repeat' split
  all_goals simp

theorem genai_kb_view_reason (g : GenAI.State) (req : AuthorizationRequest) :
    (GenAI.check_kb_view_permission g req).reason ≠ some "recursion limit exceeded" := by
  simp only [GenAI.check_kb_view_permission]
  repeat' split
  all_goals simp

theorem genai_kb_contribute_reason (g : GenAI.State) (req : AuthorizationRequest) :
    (GenAI.check_kb_contribute_permission g req).reason ≠ some "recursion limit exceeded" := by
  simp only [GenAI.check_kb_contribute_permission]
  repeat' split
  all_goals simp

theorem genai_kb_curate_reason (g : GenAI.State) (req : AuthorizationRequest) :
    (GenAI.check_kb_curate_permission g req).reason ≠ some "recursion limit exceeded" := by
  simp only [GenAI.check_kb_curate_permission]
  repeat' split
  all_goals simp

theorem genai_kb_admin_reason (g : GenAI.State) (req : AuthorizationRequest) :
    (GenAI.check_kb_admin_permission g req).reason ≠ some "recursion limit exceeded" := by
  simp only [GenAI.check_kb_admin_permission]
  repeat' split
  all_goals simp

theorem genai_doc_view_reason (g : GenAI.State) (req : AuthorizationRequest) :
    (GenAI.check_document_view_permission g req).reason ≠ some "recursion limit exceeded" := by
  simp only [GenAI.check_document_view_permission]
  repeat' split
  all_goals simp

theorem genai_doc_edit_reason (g : GenAI.State) (req : AuthorizationRequest) :
    (GenAI.check_document_edit_permission g req).reason ≠ some "recursion limit exceeded" := by
  simp only [GenAI.check_document_edit_permission]
  repeat' split
  all_goals simp

theorem genai_doc_delete_reason (g : GenAI.State) (req : AuthorizationRequest) :
    (GenAI.check_document_delete_permission g req).reason ≠ some "recursion limit exceeded" := by
  simp only [GenAI.check_document_delete_permission]
  repeat' split
  all_goals simp

theorem genai_model_use_reason (g : GenAI.State) (req : AuthorizationRequest) :
    (GenAI.check_model_use_permission g req).reason ≠ some "recursion limit exceeded" := by
  simp only [GenAI.check_model_use_permission]
  repeat' split
  all_goals simp

theorem genai_model_configure_reason (g : GenAI.State) (req : AuthorizationRequest) :
    (GenAI.check_model_configure_permission g req).reason ≠ some "recursion limit exceeded" := by
  simp only [GenAI.check_model_configure_permission]
  repeat' split
  all_goals simp

theorem genai_model_admin_reason (g : GenAI.State) (req : AuthorizationRequest) :
    (GenAI.check_model_admin_permission g req).reason ≠ some "recursion limit exceeded" := by
  simp only [GenAI.check_model_admin_permission]
  repeat' split
  all_goals simp

theorem genai_session_view_reason (g : GenAI.State) (req : AuthorizationRequest) :
    (GenAI.check_session_view_permission g req).reason ≠ some "recursion limit exceeded" := by
  simp only [GenAI.check_session_view_permission]
  repeat' split
  all_goals simp

theorem genai_session_docs_reason (g : GenAI.State) (req : AuthorizationRequest) :
    (GenAI.check_session_document_access_permission g req).reason ≠ some "recursion limit exceeded" := by
  simp only [GenAI.check_session_document_access_permission]
  repeat' split
  all_goals simp

theorem genai_query_view_reason (g : GenAI.State) (req : AuthorizationRequest) :
    (GenAI.check_query_view_permission g req).reason ≠ some "recursion limit exceeded" := by
  simp only [GenAI.check_query_view_permission]
  repeat' split
  all_goals simp

theorem genai_query_results_reason (g : GenAI.State) (req : AuthorizationRequest) :
    (GenAI.check_query_results_permission g req).reason ≠ some "recursion limit exceeded" := by
  simp only [GenAI.check_query_results_permission]
  repeat' split
  all_goals simp

/-- Counterexample refuting claim C3: a graph whose parent references
form a cyclic id chain (document `d` names knowledge base `d`, which
names organization `d`) is exactly the corrupted input the claim says
must produce a deny with reason "recursion limit exceeded"; the check
instead terminates with an ordinary denial reason.  The code carries no
recursion-depth counter: delegation is a fixed cascade of distinct
non-recursive checkers. -/
theorem cyclic_parent_graph_not_depth_limited :
    (GenAI.check_authorization GenAI.cyclicState
      { user := "user:u", relation := "can_view", object := "document:d" }).allowed = false ∧
    (GenAI.check_authorization GenAI.cyclicState
      { user := "user:u", relation := "can_view", object := "document:d" }).reason =
      some "User not authorized to view document" ∧
    ("User not authorized to view document" : String) ≠ "recursion limit exceeded" :=
  ⟨by decide, by decide, by decide⟩

/-- Claim C3 as amended: neither evaluator carries a recursion-depth
counter; instead every delegation step invokes a fixed distinct checker,
so every check terminates with a decision on every graph — including
graphs whose parent references form a cyclic id chain — and no check
result ever carries the reason "recursion limit exceeded". -/
theorem no_recursion_limit_reason :
    (∀ (g : Banking.State) (req : AuthorizationRequest),
      (Banking.check_authorization g req).reason ≠ some "recursion limit exceeded") ∧
    (∀ (g : GenAI.State) (req : AuthorizationRequest),
      (GenAI.check_authorization g req).reason ≠ some "recursion limit exceeded") := by
  constructor
  · intro g req
    simp only [Banking.check_authorization]
    repeat' split
    · exact banking_view_reason g req
    · exact banking_deposit_reason g req
    · exact banking_withdraw_reason g req
    · exact banking_transfer_reason g req
    · exact banking_loan_view_reason g req
    · exact banking_loan_approve_reason g req
    · exact banking_loan_modify_reason g req
    · simp
  · intro g req
    simp only [GenAI.check_authorization]
    by_cases h1 : req.relation = "can_view" ∧ seg 0 req.object = "knowledge_base"
    · rw [if_pos h1]
      exact genai_kb_view_reason g req
    rw [if_neg h1]
    by_cases h2 : req.relation = "can_contribute" ∧ seg 0 req.object = "knowledge_base"
    · rw [if_pos h2]
      exact genai_kb_contribute_reason g req
    rw [if_neg h2]
    by_cases h3 : req.relation = "can_curate" ∧ seg 0 req.object = "knowledge_base"
    · rw [if_pos h3]
      exact genai_kb_curate_reason g req
    rw [if_neg h3]
    by_cases h4 : req.relation = "can_admin" ∧ seg 0 req.object = "knowledge_base"
    · rw [if_pos h4]
      exact genai_kb_admin_reason g req
    rw [if_neg h4]
    by_cases h5 : req.relation = "can_view" ∧ seg 0 req.object = "document"
    · rw [if_pos h5]
      exact genai_doc_view_reason g req
    rw [if_neg h5]
    by_cases h6 : req.relation = "can_edit" ∧ seg 0 req.object = "document"
    · rw [if_pos h6]
      exact genai_doc_edit_reason g req
    rw [if_neg h6]
    by_cases h7 : req.relation = "can_delete" ∧ seg 0 req.object = "document"
    · rw [if_pos h7]
      exact genai_doc_delete_reason g req
    rw [if_neg h7]
    by_cases h8 : req.relation = "can_use_in_rag" ∧ seg 0 req.object = "document"
    · rw [if_pos h8]
      exact genai_doc_view_reason g req
    rw [if_neg h8]
    by_cases h9 : req.relation = "can_use" ∧ seg 0 req.object = "ai_model"
    · rw [if_pos h9]
      exact genai_model_use_reason g req
    rw [if_neg h9]
    by_cases h10 : req.relation = "can_configure" ∧ seg 0 req.object = "ai_model"
    · rw [if_pos h10]
      exact genai_model_configure_reason g req
    rw [if_neg h10]
    by_cases h11 : req.relation = "can_admin" ∧ seg 0 req.object = "ai_model"
    · rw [if_pos h11]
      exact genai_model_admin_reason g req
    rw [if_neg h11]
    by_cases h12 : req.relation = "can_view" ∧ seg 0 req.object = "rag_session"
    · rw [if_pos h12]
      exact genai_session_view_reason g req
    rw [if_neg h12]
    by_cases h13 : req.relation = "can_query" ∧ seg 0 req.object = "rag_session"
    · rw [if_pos h13]
      exact genai_session_view_reason g req
    rw [if_neg h13]
    by_cases h14 : req.relation = "can_access_documents" ∧ seg 0 req.object = "rag_session"
    · rw [if_pos h14]
      exact genai_session_docs_reason g req
    rw [if_neg h14]
    by_cases h15 : req.relation = "can_view" ∧ seg 0 req.object = "rag_query"
    · rw [if_pos h15]
      exact genai_query_view_reason g req
    rw [if_neg h15]
    by_cases h16 : req.relation = "can_access_results" ∧ seg 0 req.object = "rag_query"
    · rw [if_pos h16]
      exact genai_query_results_reason g req
    rw [if_neg h16]
    simp

/-! ## Dispatch lemmas: which checker a request routes to -/

theorem genai_dispatch_doc_view (g : GenAI.State) (req : AuthorizationRequest)
    (hrel : req.relation = "can_view") (ht : seg 0 req.object = "document") :
    GenAI.check_authorization g req = GenAI.check_document_view_permission g req := by
  simp only [GenAI.check_authorization]
  rw [if_neg (fun hc => absurd (ht.symm.trans hc.2) (by decide))]
  rw [if_neg (fun hc => absurd (hrel.symm.trans hc.1) (by decide))]
  rw [if_neg (fun hc => absurd (hrel.symm.trans hc.1) (by decide))]
  rw [if_neg (fun hc => absurd (hrel.symm.trans hc.1) (by decide))]
  rw [if_pos ⟨hrel, ht⟩]

theorem genai_dispatch_doc_rag (g : GenAI.State) (req : AuthorizationRequest)
    (hrel : req.relation = "can_use_in_rag") (ht : seg 0 req.object = "document") :
    GenAI.check_authorization g req = GenAI.check_document_rag_permission g req := by
  simp only [GenAI.check_authorization]
  rw [if_neg (fun hc => absurd (hrel.symm.trans hc.1) (by decide))]
  rw [if_neg (fun hc => absurd (hrel.symm.trans hc.1) (by decide))]
  rw [if_neg (fun hc => absurd (hrel.symm.trans hc.1) (by decide))]
  rw [if_neg (fun hc => absurd (hrel.symm.trans hc.1) (by decide))]
  rw [if_neg (fun hc => absurd (hrel.symm.trans hc.1) (by decide))]
  rw [if_neg (fun hc => absurd (hrel.symm.trans hc.1) (by decide))]
  rw [if_neg (fun hc => absurd (hrel.symm.trans hc.1) (by decide))]
  rw [if_pos ⟨hrel, ht⟩]

theorem genai_dispatch_query_view (g : GenAI.State) (req : AuthorizationRequest)
    (hrel : req.relation = "can_view") (ht : seg 0 req.object = "rag_query") :
    GenAI.check_authorization g req = GenAI.check_query_view_permission g req := by
  simp only [GenAI.check_authorization]
  rw [if_neg (fun hc => absurd (ht.symm.trans hc.2) (by decide))]
  rw [if_neg (fun hc => absurd (hrel.symm.trans hc.1) (by decide))]
  rw [if_neg (fun hc => absurd (hrel.symm.trans hc.1) (by decide))]
  rw [if_neg (fun hc => absurd (hrel.symm.trans hc.1) (by decide))]
  rw [if_neg (fun hc => absurd (ht.symm.trans hc.2) (by decide))]
  rw [if_neg (fun hc => absurd (hrel.symm.trans hc.1) (by decide))]
  rw [if_neg (fun hc => absurd (hrel.symm.trans hc.1) (by decide))]
  rw [if_neg (fun hc => absurd (hrel.symm.trans hc.1) (by decide))]
  rw [if_neg (fun hc => absurd (hrel.symm.trans hc.1) (by decide))]
  rw [if_neg (fun hc => absurd (hrel.symm.trans hc.1) (by decide))]
  rw [if_neg (fun hc => absurd (hrel.symm.trans hc.1) (by decide))]
  rw [if_neg (fun hc => absurd (ht.symm.trans hc.2) (by decide))]
  rw [if_neg (fun hc => absurd (hrel.symm.trans hc.1) (by decide))]
  rw [if_neg (fun hc => absurd (hrel.symm.trans hc.1) (by decide))]
  rw [if_pos ⟨hrel, ht⟩]

theorem genai_dispatch_query_results (g : GenAI.State) (req : AuthorizationRequest)
    (hrel : req.relation = "can_access_results") (ht : seg 0 req.object = "rag_query") :
    GenAI.check_authorization g req = GenAI.check_query_results_permission g req := by
  simp only [GenAI.check_authorization]
  rw [if_neg (fun hc => absurd (hrel.symm.trans hc.1) (by decide))]
  rw [if_neg (fun hc => absurd (hrel.symm.trans hc.1) (by decide))]
  rw [if_neg (fun hc => absurd (hrel.symm.trans hc.1) (by decide))]
  rw [if_neg (fun hc => absurd (hrel.symm.trans hc.1) (by decide))]
  rw [if_neg (fun hc => absurd (hrel.symm.trans hc.1) (by decide))]
  rw [if_neg (fun hc => absurd (hrel.symm.trans hc.1) (by decide))]
  rw [if_neg (fun hc => absurd (hrel.symm.trans hc.1) (by decide))]
  rw [if_neg (fun hc => absurd (hrel.symm.trans hc.1) (by decide))]
  rw [if_neg (fun hc => absurd (hrel.symm.trans hc.1) (by decide))]
  rw [if_neg (fun hc => absurd (hrel.symm.trans hc.1) (by decide))]
  rw [if_neg (fun hc => absurd (hrel.symm.trans hc.1) (by decide))]
  rw [if_neg (fun hc => absurd (hrel.symm.trans hc.1) (by decide))]
  rw [if_neg (fun hc => absurd (hrel.symm.trans hc.1) (by decide))]
  rw [if_neg (fun hc => absurd (hrel.symm.trans hc.1) (by decide))]
  rw [if_neg (fun hc => absurd (hrel.symm.trans hc.1) (by decide))]
  rw [if_pos ⟨hrel, ht⟩]

/-! ## Theorems: claim C10 — `can_use_in_rag` coincides with `can_view`
on documents -/

/-- Claim C10: for every graph and every request whose object is of type
`document`, the `can_use_in_rag` check returns exactly the same response
(in particular the same `allowed` value) as the `can_view` check on the
same document for the same subject. -/
theorem rag_permission_equals_view_permission
    (g : GenAI.State) (req : AuthorizationRequest)
    (ht : seg 0 req.object = "document") :
    GenAI.check_authorization g { req with relation := "can_use_in_rag" } =
    GenAI.check_authorization g { req with relation := "can_view" } := by
  obtain ⟨u, rel, o⟩ := req
  dsimp only at ht ⊢
  rw [genai_dispatch_doc_rag g _ rfl ht, genai_dispatch_doc_view g _ rfl ht]
  rfl

/-- Witness for C10: charlie's RAG-usage decision on doc1 equals the
view decision. -/
theorem rag_permission_equals_view_permission_witness :
    GenAI.check_authorization GenAI.demoState
      { user := "user:charlie", relation := "can_use_in_rag", object := "document:doc1" } =
    GenAI.check_authorization GenAI.demoState
      { user := "user:charlie", relation := "can_view", object := "document:doc1" } :=
  rag_permission_equals_view_permission GenAI.demoState
    { user := "user:charlie", relation := "x", object := "document:doc1" } (by decide)

/-! ## Theorems: claim C4 — confidential-default rule for documents -/

/-- Curation on the parent knowledge base is stricter than viewing it:
a subject who may curate may also view. -/
theorem genai_curate_le_view (g : GenAI.State) (did uid : String)
    (h : GenAI.can_curate_kb_for_document g did uid = true) :
    GenAI.can_view_kb_for_document g did uid = true := by
  unfold GenAI.can_curate_kb_for_document at h
  unfold GenAI.can_view_kb_for_document
  cases hl : List.lookup did g.documents with
  | none => rw [hl] at h; simp at h
  | some doc =>
    rw [hl] at h
    simp only [GenAI.check_kb_curate_permission] at h
    split at h
    case isTrue hc =>
      simp only [GenAI.check_kb_view_permission]
      rw [if_pos (show _ = true by simp [hc])]
    case isFalse hc => simp at h

/-- Claim C4: a document whose explicit `viewers` and `editors` lists are
both empty delegates to the parent knowledge base's stricter curation
permission — its `can_view` succeeds exactly for the owner or a KB
curator, denying subjects with only ordinary KB view rights — whereas a
document with a non-empty `viewers` or `editors` list delegates to the
ordinary KB view permission; and curation is indeed stricter than
viewing. -/
theorem confidential_default_documents
    (g : GenAI.State) (req : AuthorizationRequest) (doc : GenAI.Document)
    (hrel : req.relation = "can_view") (ht : seg 0 req.object = "document")
    (hlook : List.lookup (seg 1 req.object) g.documents = some doc) :
    ((doc.viewers = [] ∧ doc.editors = [] →
      ((GenAI.check_authorization g req).allowed = true ↔
        (doc.owner_id = seg 1 req.user ∨
         GenAI.can_curate_kb_for_document g (seg 1 req.object) (seg 1 req.user) = true))) ∧
     (¬(doc.viewers = [] ∧ doc.editors = []) →
      ((GenAI.check_authorization g req).allowed = true ↔
        (doc.owner_id = seg 1 req.user ∨ seg 1 req.user ∈ doc.editors ∨
         seg 1 req.user ∈ doc.viewers ∨
         GenAI.can_view_kb_for_document g (seg 1 req.object) (seg 1 req.user) = true))) ∧
     (GenAI.can_curate_kb_for_document g (seg 1 req.object) (seg 1 req.user) = true →
      GenAI.can_view_kb_for_document g (seg 1 req.object) (seg 1 req.user) = true)) := by
  rw [genai_dispatch_doc_view g req hrel ht]
  refine ⟨?_, ?_, genai_curate_le_view g _ _⟩
  · rintro ⟨hv, he⟩
    simp only [GenAI.check_document_view_permission, GenAI.is_document_owner,
      GenAI.is_document_editor, GenAI.is_document_viewer, hlook, hv, he]
    cases hcu : GenAI.can_curate_kb_for_document g (seg 1 req.object) (seg 1 req.user) <;>
      cases ho : (doc.owner_id == seg 1 req.user) <;>
        simp_all [beq_iff_eq]
  · intro hne
    have hie : (doc.viewers.isEmpty && doc.editors.isEmpty) = false := by
      rcases hv : doc.viewers with _ | ⟨x, xs⟩
      · rcases he : doc.editors with _ | ⟨y, ys⟩
        · exact absurd ⟨hv, he⟩ hne
        · simp
      · simp
    simp only [GenAI.check_document_view_permission, GenAI.is_document_owner,
      GenAI.is_document_editor, GenAI.is_document_viewer, hlook, hie]
    cases hvw : GenAI.can_view_kb_for_document g (seg 1 req.object) (seg 1 req.user) <;>
      cases ho : (doc.owner_id == seg 1 req.user) <;>
        simp_all [beq_iff_eq] <;> (split <;> simp_all)

/-- Witness for C4: `doc3` has empty viewer/editor lists; bob is a KB
contributor (ordinary view rights) but neither owner nor curator, so the
confidential-default branch denies him. -/
theorem confidential_default_documents_witness :
    (GenAI.check_authorization GenAI.demoState
      { user := "user:bob", relation := "can_view", object := "document:doc3" }).allowed
      = false := by
  have h := (confidential_default_documents GenAI.demoState
    { user := "user:bob", relation := "can_view", object := "document:doc3" }
    GenAI.doc3 rfl (by decide) (by decide)).1 ⟨rfl, rfl⟩
  have hrhs : ¬(GenAI.doc3.owner_id =
        seg 1 (AuthorizationRequest.user
          { user := "user:bob", relation := "can_view", object := "document:doc3" }) ∨
      GenAI.can_curate_kb_for_document GenAI.demoState
        (seg 1 (AuthorizationRequest.object
          { user := "user:bob", relation := "can_view", object := "document:doc3" }))
        (seg 1 (AuthorizationRequest.user
          { user := "user:bob", relation := "can_view", object := "document:doc3" }))
        = true) := by decide
  cases hb : (GenAI.check_authorization GenAI.demoState
      { user := "user:bob", relation := "can_view", object := "document:doc3" }).allowed
  · rfl
  · exact absurd (h.mp hb) hrhs

/-! ## Theorems: claim C6 — conjunction semantics of `can_access_results` -/

/-- Claim C6: `can_access_results` on a RAG query is allowed exactly when
the subject's `can_view` check on the query is allowed and the subject's
`can_use_in_rag` check is allowed for every document in the query's
`queried_documents` list. -/
theorem query_results_conjunction
    (g : GenAI.State) (req : AuthorizationRequest) (q : GenAI.RAGQuery)
    (hrel : req.relation = "can_access_results") (ht : seg 0 req.object = "rag_query")
    (hlook : List.lookup (seg 1 req.object) g.rag_queries = some q) :
    (GenAI.check_authorization g req).allowed = true ↔
      ((GenAI.check_authorization g
          { user := req.user, relation := "can_view", object := req.object }).allowed
          = true ∧
       ∀ d ∈ q.queried_documents,
         (GenAI.check_authorization g
           { user := mkRef "user" (seg 1 req.user), relation := "can_use_in_rag",
             object := mkRef "document" d }).allowed = true) := by
  obtain ⟨u, rel, o⟩ := req
  dsimp only at hrel ht hlook ⊢
  subst hrel
  rw [genai_dispatch_query_results g _ rfl ht,
      genai_dispatch_query_view g _ rfl ht]
  have hAA : GenAI.check_query_view_permission g
      { user := u, relation := "can_view", object := o } =
      GenAI.check_query_view_permission g
      { user := u, relation := "can_access_results", object := o } := rfl
  rw [hAA]
  have hdd : ∀ d : String,
      GenAI.check_authorization g
        { user := mkRef "user" (seg 1 u), relation := "can_use_in_rag",
          object := mkRef "document" d } =
      GenAI.check_document_rag_permission g
        { user := mkRef "user" (seg 1 u), relation := "can_use_in_rag",
          object := mkRef "document" d } := fun d =>
    genai_dispatch_doc_rag g _ rfl (seg_zero_mkRef "document" d (by decide))
  simp only [GenAI.check_query_results_permission,
    GenAI.can_access_all_queried_documents, hlook, hdd]
  split
  · rename_i hc
    simp only [Bool.and_eq_true, List.all_eq_true] at hc
    exact iff_of_true rfl ⟨hc.1, hc.2⟩
  · rename_i hc
    refine iff_of_false (by simp) ?_
    rintro ⟨h1, h2⟩
    refine hc ?_
    simp only [Bool.and_eq_true, List.all_eq_true]
    exact ⟨h1, h2⟩

/-- Witness for C6: bob initiated `query1` and may use its single cited
document `doc1` in RAG, so he may access the results. -/
theorem query_results_conjunction_witness :
    (GenAI.check_authorization GenAI.demoState
      { user := "user:bob", relation := "can_access_results",
        object := "rag_query:query1" }).allowed = true :=
  (query_results_conjunction GenAI.demoState
    { user := "user:bob", relation := "can_access_results", object := "rag_query:query1" }
    GenAI.query1 rfl (by decide) (by decide)).mpr ⟨by decide, by decide⟩

/-! ## Theorems: claim C7 — `get_filtered_rag_response` outcomes -/

/-- Counterexample refuting claim C7 as stated: for a query id that does
not resolve (here on the empty graph and on the demo graph), the function
returns `none` — a third outcome that is neither the underlying response
content nor the "access denied" sentinel string. -/
theorem filtered_rag_response_counterexample :
    GenAI.get_filtered_rag_response GenAI.emptyState "q" "u" = none ∧
    GenAI.get_filtered_rag_response GenAI.demoState "query2" "bob" = none :=
  ⟨by decide, by decide⟩

/-- Claim C7 as amended: for every query id that resolves to a stored
query, `get_filtered_rag_response` returns either the query's underlying
response text (when `can_access_results` is allowed) or the fixed access
denied sentinel (when denied); a non-resolving query id returns `none`. -/
theorem filtered_rag_response_two_outcomes
    (g : GenAI.State) (query_id user_id : String) (q : GenAI.RAGQuery)
    (hq : List.lookup query_id g.rag_queries = some q) :
    GenAI.get_filtered_rag_response g query_id user_id = some q.response_text ∨
    GenAI.get_filtered_rag_response g query_id user_id =
      some "Access denied: Insufficient permissions to view query results" := by
  simp only [GenAI.get_filtered_rag_response, hq]
  split
  · exact Or.inl rfl
  · exact Or.inr rfl

/-- Witness for C7 on the demo graph: bob's read of `query1`. -/
theorem filtered_rag_response_two_outcomes_witness :
    GenAI.get_filtered_rag_response GenAI.demoState "query1" "bob" =
      some GenAI.query1.response_text ∨
    GenAI.get_filtered_rag_response GenAI.demoState "query1" "bob" =
      some "Access denied: Insufficient permissions to view query results" :=
  filtered_rag_response_two_outcomes GenAI.demoState "query1" "bob" GenAI.query1 (by decide)

/-! ## Theorems: claim C8 — `get_documents_for_user` -/

/-- Counterexample refuting claim C8 as stated for arbitrary ids: a
document whose id contains the `:` separator round-trips through the
`document:<id>` reference as a different id, so its owner does not get it
back from `get_documents_for_user`. -/
theorem owned_document_listing_counterexample :
    GenAI.colonDoc.owner_id = "u" ∧
    GenAI.colonDoc ∈ GenAI.colonState.documents.map (fun p => p.2) ∧
    GenAI.get_documents_for_user GenAI.colonState "u" = [] :=
  ⟨rfl, by decide, by decide⟩

/-- In an association list with no duplicate keys, lookup of the key of a
member returns its value. -/
theorem lookup_of_mem_nodup {T : Type} (l : List (String × T)) (k : String) (v : T)
    (hnd : (l.map (fun p => p.1)).Nodup) (hm : (k, v) ∈ l) :
    List.lookup k l = some v := by
  induction l with
  | nil => simp at hm
  | cons p ps ih =>
    simp only [List.map_cons, List.nodup_cons] at hnd
    rcases List.mem_cons.mp hm with heq | hm'
    · rw [← heq]
      simp [List.lookup]
    · have hk : ¬(k == p.1) = true := by
        intro hb
        exact hnd.1 (beq_iff_eq.mp hb ▸ List.mem_map.mpr ⟨(k, v), hm', rfl⟩)
      cases p with
      | mk p1 p2 =>
        simp only [List.lookup]
        cases hbe : (k == p1) with
        | true => exact absurd hbe hk
        | false => exact ih hnd.2 hm'

/-- Claim C8 as amended: `get_documents_for_user` retains exactly the
stored documents whose `can_view` check succeeds; and on graphs whose
document keys equal the document ids, have no duplicates, and whose ids
(and the queried user id) contain no `:` separator — which the demo
constructors maintain — it includes every document owned by the user. -/
theorem list_accessible_retains_viewable_and_owned :
    (∀ (g : GenAI.State) (user_id : String) (doc : GenAI.Document),
      doc ∈ GenAI.get_documents_for_user g user_id ↔
        (doc ∈ g.documents.map (fun p => p.2) ∧
         (GenAI.check_authorization g
           { user := mkRef "user" user_id, relation := "can_view",
             object := mkRef "document" doc.id }).allowed = true)) ∧
    (∀ (g : GenAI.State) (user_id : String) (doc : GenAI.Document),
      (∀ p ∈ g.documents, p.1 = p.2.id) →
      (g.documents.map (fun p => p.1)).Nodup →
      ':' ∉ doc.id.data → ':' ∉ user_id.data →
      doc ∈ g.documents.map (fun p => p.2) →
      doc.owner_id = user_id →
      doc ∈ GenAI.get_documents_for_user g user_id) := by
  have hexact : ∀ (g : GenAI.State) (user_id : String) (doc : GenAI.Document),
      doc ∈ GenAI.get_documents_for_user g user_id ↔
        (doc ∈ g.documents.map (fun p => p.2) ∧
         (GenAI.check_authorization g
           { user := mkRef "user" user_id, relation := "can_view",
             object := mkRef "document" doc.id }).allowed = true) := by
    intro g user_id doc
    unfold GenAI.get_documents_for_user
    rw [List.mem_filter]
  refine ⟨hexact, ?_⟩
  intro g user_id doc hkeys hnd hid huid hmem hown
  refine (hexact g user_id doc).mpr ⟨hmem, ?_⟩
  have hlook : List.lookup doc.id g.documents = some doc := by
    rcases List.mem_map.mp hmem with ⟨p, hp, hpe⟩
    have hk := hkeys p hp
    refine lookup_of_mem_nodup g.documents doc.id doc hnd ?_
    have : p = (doc.id, doc) := by
      cases p with
      | mk p1 p2 =>
        simp only at hpe
        subst hpe
        simp only at hk
        rw [hk]
    rw [← this]
    exact hp
  rw [genai_dispatch_doc_view g _ rfl (seg_zero_mkRef "document" doc.id (by decide))]
  have hseg1 : seg 1 (mkRef "document" doc.id) = doc.id := by
    rw [seg_one_mkRef "document" doc.id (by decide), seg_zero_of_not_mem doc.id hid]
  have hsegu : seg 1 (mkRef "user" user_id) = user_id := by
    rw [seg_one_mkRef "user" user_id (by decide), seg_zero_of_not_mem user_id huid]
  simp only [GenAI.check_document_view_permission, hseg1, hsegu, GenAI.is_document_owner,
    hlook, hown]
  rw [if_pos (show _ = true by simp)]

/-- Witness for C8: alice owns `doc1`, and the demo graph satisfies the
well-formedness conditions, so `doc1` is in her listing. -/
theorem list_accessible_retains_viewable_and_owned_witness :
    GenAI.doc1 ∈ GenAI.get_documents_for_user GenAI.demoState "alice" :=
  list_accessible_retains_viewable_and_owned.2 GenAI.demoState "alice" GenAI.doc1
    (by decide) (by decide) (by decide) (by decide) (by decide) rfl

/-! ## Theorems: claim C9 — tuple materialization -/

/-- Counterexample refuting claim C9 as stated: the GenAI materializer
consults only the organization stored under `"org1"`; an organization
stored under `"org2"` contributes no tuples at all, so its member `m`
has no `(user:m, member, organization:org2)` triple. -/
theorem tuple_materializer_counterexample :
    "m" ∈ GenAI.org2.members ∧
    GenAI.setup_authorization_tuples GenAI.org2State = [] ∧
    ({ user := "user:m", relation := "member",
       object := "organization:org2" } : OpenFGATuple) ∉
      GenAI.setup_authorization_tuples GenAI.org2State :=
  ⟨by decide, by decide, by decide⟩

theorem genai_tuples_org1 (g : GenAI.State) (org : GenAI.Organization)
    (horg : List.lookup "org1" g.organizations = some org) :
    (∀ a ∈ org.admins,
      ({ user := mkRef "user" a, relation := "admin",
         object := "organization:org1" } : OpenFGATuple) ∈
        GenAI.setup_authorization_tuples g) ∧
    (∀ m ∈ org.members,
      ({ user := mkRef "user" m, relation := "member",
         object := "organization:org1" } : OpenFGATuple) ∈
        GenAI.setup_authorization_tuples g) := by
  constructor
  · intro a ha
    unfold GenAI.setup_authorization_tuples
    rw [horg]
    exact List.mem_append_left _ (List.mem_append_left _ (List.mem_append_left _ (List.mem_append_left _ (List.mem_append_left _ (List.mem_append_left _ (List.mem_map.mpr ⟨a, ha, rfl⟩))))))
  · intro m hm
    unfold GenAI.setup_authorization_tuples
    rw [horg]
    exact List.mem_append_left _ (List.mem_append_left _ (List.mem_append_left _ (List.mem_append_left _ (List.mem_append_left _ (List.mem_append_right _ (List.mem_map.mpr ⟨m, hm, rfl⟩))))))

theorem genai_tuples_kbs (g : GenAI.State) :
    ∀ p ∈ g.knowledge_bases,
      (({ user := mkRef "organization" p.2.parent_org_id, relation := "parent_org",
          object := mkRef "knowledge_base" p.2.id } : OpenFGATuple) ∈
        GenAI.setup_authorization_tuples g) ∧
      (∀ c ∈ p.2.curators,
        ({ user := mkRef "user" c, relation := "curator",
           object := mkRef "knowledge_base" p.2.id } : OpenFGATuple) ∈
          GenAI.setup_authorization_tuples g) ∧
      (∀ c ∈ p.2.contributors,
        ({ user := mkRef "user" c, relation := "contributor",
           object := mkRef "knowledge_base" p.2.id } : OpenFGATuple) ∈
          GenAI.setup_authorization_tuples g) ∧
      (∀ c ∈ p.2.readers,
        ({ user := mkRef "user" c, relation := "reader",
           object := mkRef "knowledge_base" p.2.id } : OpenFGATuple) ∈
          GenAI.setup_authorization_tuples g) := by
  intro p hp
  unfold GenAI.setup_authorization_tuples
  refine ⟨?_, fun c hc => ?_, fun c hc => ?_, fun c hc => ?_⟩
  · exact List.mem_append_left _ (List.mem_append_left _ (List.mem_append_left _ (List.mem_append_left _ (List.mem_append_right _ (List.mem_flatMap.mpr ⟨p.2, List.mem_map.mpr ⟨p, hp, rfl⟩, List.mem_cons_self _ _⟩)))))
  · exact List.mem_append_left _ (List.mem_append_left _ (List.mem_append_left _ (List.mem_append_left _ (List.mem_append_right _ (List.mem_flatMap.mpr ⟨p.2, List.mem_map.mpr ⟨p, hp, rfl⟩, List.mem_cons_of_mem _ (List.mem_append_left _ (List.mem_append_left _ (List.mem_map.mpr ⟨c, hc, rfl⟩)))⟩)))))
  · exact List.mem_append_left _ (List.mem_append_left _ (List.mem_append_left _ (List.mem_append_left _ (List.mem_append_right _ (List.mem_flatMap.mpr ⟨p.2, List.mem_map.mpr ⟨p, hp, rfl⟩, List.mem_cons_of_mem _ (List.mem_append_left _ (List.mem_append_right _ (List.mem_map.mpr ⟨c, hc, rfl⟩)))⟩)))))
  · exact List.mem_append_left _ (List.mem_append_left _ (List.mem_append_left _ (List.mem_append_left _ (List.mem_append_right _ (List.mem_flatMap.mpr ⟨p.2, List.mem_map.mpr ⟨p, hp, rfl⟩, List.mem_cons_of_mem _ (List.mem_append_right _ (List.mem_map.mpr ⟨c, hc, rfl⟩))⟩)))))

theorem genai_tuples_docs (g : GenAI.State) :
    ∀ p ∈ g.documents,
      (({ user := mkRef "knowledge_base" p.2.parent_kb_id, relation := "parent_kb",
          object := mkRef "document" p.2.id } : OpenFGATuple) ∈
        GenAI.setup_authorization_tuples g) ∧
      (({ user := mkRef "user" p.2.owner_id, relation := "owner",
          object := mkRef "document" p.2.id } : OpenFGATuple) ∈
        GenAI.setup_authorization_tuples g) ∧
      (∀ c ∈ p.2.editors,
        ({ user := mkRef "user" c, relation := "editor",
           object := mkRef "document" p.2.id } : OpenFGATuple) ∈
          GenAI.setup_authorization_tuples g) ∧
      (∀ c ∈ p.2.viewers,
        ({ user := mkRef "user" c, relation := "viewer",
           object := mkRef "document" p.2.id } : OpenFGATuple) ∈
          GenAI.setup_authorization_tuples g) := by
  intro p hp
  unfold GenAI.setup_authorization_tuples
  refine ⟨?_, ?_, fun c hc => ?_, fun c hc => ?_⟩
  · exact List.mem_append_left _ (List.mem_append_left _ (List.mem_append_left _ (List.mem_append_right _ (List.mem_flatMap.mpr ⟨p.2, List.mem_map.mpr ⟨p, hp, rfl⟩, List.mem_cons_self _ _⟩))))
  · exact List.mem_append_left _ (List.mem_append_left _ (List.mem_append_left _ (List.mem_append_right _ (List.mem_flatMap.mpr ⟨p.2, List.mem_map.mpr ⟨p, hp, rfl⟩, List.mem_cons_of_mem _ (List.mem_cons_self _ _)⟩))))
  · exact List.mem_append_left _ (List.mem_append_left _ (List.mem_append_left _ (List.mem_append_right _ (List.mem_flatMap.mpr ⟨p.2, List.mem_map.mpr ⟨p, hp, rfl⟩, List.mem_cons_of_mem _ (List.mem_cons_of_mem _ (List.mem_append_left _ (List.mem_map.mpr ⟨c, hc, rfl⟩)))⟩))))
  · exact List.mem_append_left _ (List.mem_append_left _ (List.mem_append_left _ (List.mem_append_right _ (List.mem_flatMap.mpr ⟨p.2, List.mem_map.mpr ⟨p, hp, rfl⟩, List.mem_cons_of_mem _ (List.mem_cons_of_mem _ (List.mem_append_right _ (List.mem_map.mpr ⟨c, hc, rfl⟩)))⟩))))

theorem genai_tuples_models (g : GenAI.State) :
    ∀ p ∈ g.ai_models,
      (({ user := mkRef "organization" p.2.parent_org_id, relation := "parent_org",
          object := mkRef "ai_model" p.2.id } : OpenFGATuple) ∈
        GenAI.setup_authorization_tuples g) ∧
      (∀ c ∈ p.2.operators,
        ({ user := mkRef "user" c, relation := "operator",
           object := mkRef "ai_model" p.2.id } : OpenFGATuple) ∈
          GenAI.setup_authorization_tuples g) ∧
      (∀ c ∈ p.2.users,
        ({ user := mkRef "user" c, relation := "user",
           object := mkRef "ai_model" p.2.id } : OpenFGATuple) ∈
          GenAI.setup_authorization_tuples g) := by
  intro p hp
  unfold GenAI.setup_authorization_tuples
  refine ⟨?_, fun c hc => ?_, fun c hc => ?_⟩
  · exact List.mem_append_left _ (List.mem_append_left _ (List.mem_append_right _ (List.mem_flatMap.mpr ⟨p.2, List.mem_map.mpr ⟨p, hp, rfl⟩, List.mem_cons_self _ _⟩)))
  · exact List.mem_append_left _ (List.mem_append_left _ (List.mem_append_right _ (List.mem_flatMap.mpr ⟨p.2, List.mem_map.mpr ⟨p, hp, rfl⟩, List.mem_cons_of_mem _ (List.mem_append_left _ (List.mem_map.mpr ⟨c, hc, rfl⟩))⟩)))
  · exact List.mem_append_left _ (List.mem_append_left _ (List.mem_append_right _ (List.mem_flatMap.mpr ⟨p.2, List.mem_map.mpr ⟨p, hp, rfl⟩, List.mem_cons_of_mem _ (List.mem_append_right _ (List.mem_map.mpr ⟨c, hc, rfl⟩))⟩)))

theorem genai_tuples_sessions (g : GenAI.State) :
    ∀ p ∈ g.rag_sessions,
      (({ user := mkRef "knowledge_base" p.2.parent_kb_id, relation := "parent_kb",
          object := mkRef "rag_session" p.2.id } : OpenFGATuple) ∈
        GenAI.setup_authorization_tuples g) ∧
      (({ user := mkRef "ai_model" p.2.parent_model_id, relation := "parent_model",
          object := mkRef "rag_session" p.2.id } : OpenFGATuple) ∈
        GenAI.setup_authorization_tuples g) ∧
      (({ user := mkRef "user" p.2.owner_id, relation := "owner",
          object := mkRef "rag_session" p.2.id } : OpenFGATuple) ∈
        GenAI.setup_authorization_tuples g) ∧
      (∀ c ∈ p.2.participants,
        ({ user := mkRef "user" c, relation := "participant",
           object := mkRef "rag_session" p.2.id } : OpenFGATuple) ∈
          GenAI.setup_authorization_tuples g) := by
  intro p hp
  unfold GenAI.setup_authorization_tuples
  refine ⟨?_, ?_, ?_, fun c hc => ?_⟩
  · exact List.mem_append_left _ (List.mem_append_right _ (List.mem_flatMap.mpr ⟨p.2, List.mem_map.mpr ⟨p, hp, rfl⟩, List.mem_cons_self _ _⟩))
  · exact List.mem_append_left _ (List.mem_append_right _ (List.mem_flatMap.mpr ⟨p.2, List.mem_map.mpr ⟨p, hp, rfl⟩, List.mem_cons_of_mem _ (List.mem_cons_self _ _)⟩))
  · exact List.mem_append_left _ (List.mem_append_right _ (List.mem_flatMap.mpr ⟨p.2, List.mem_map.mpr ⟨p, hp, rfl⟩, List.mem_cons_of_mem _ (List.mem_cons_of_mem _ (List.mem_cons_self _ _))⟩))
  · exact List.mem_append_left _ (List.mem_append_right _ (List.mem_flatMap.mpr ⟨p.2, List.mem_map.mpr ⟨p, hp, rfl⟩, List.mem_cons_of_mem _ (List.mem_cons_of_mem _ (List.mem_cons_of_mem _ (List.mem_map.mpr ⟨c, hc, rfl⟩)))⟩))

theorem genai_tuples_queries (g : GenAI.State) :
    ∀ p ∈ g.rag_queries,
      (({ user := mkRef "rag_session" p.2.parent_session_id, relation := "parent_session",
          object := mkRef "rag_query" p.2.id } : OpenFGATuple) ∈
        GenAI.setup_authorization_tuples g) ∧
      (({ user := mkRef "user" p.2.initiated_by, relation := "initiated_by",
          object := mkRef "rag_query" p.2.id } : OpenFGATuple) ∈
        GenAI.setup_authorization_tuples g) ∧
      (∀ c ∈ p.2.queried_documents,
        ({ user := mkRef "document" c, relation := "queried_documents",
           object := mkRef "rag_query" p.2.id } : OpenFGATuple) ∈
          GenAI.setup_authorization_tuples g) := by
  intro p hp
  unfold GenAI.setup_authorization_tuples
  refine ⟨?_, ?_, fun c hc => ?_⟩
  · exact List.mem_append_right _ (List.mem_flatMap.mpr ⟨p.2, List.mem_map.mpr ⟨p, hp, rfl⟩, List.mem_cons_self _ _⟩)
  · exact List.mem_append_right _ (List.mem_flatMap.mpr ⟨p.2, List.mem_map.mpr ⟨p, hp, rfl⟩, List.mem_cons_of_mem _ (List.mem_cons_self _ _)⟩)
  · exact List.mem_append_right _ (List.mem_flatMap.mpr ⟨p.2, List.mem_map.mpr ⟨p, hp, rfl⟩, List.mem_cons_of_mem _ (List.mem_cons_of_mem _ (List.mem_map.mpr ⟨c, hc, rfl⟩))⟩)
theorem banking_tuples_bank1 (g : Banking.State) (bank : Banking.Bank)
    (hbank : List.lookup "bank1" g.banks = some bank) :
    (∀ a ∈ bank.admins,
      ({ user := mkRef "user" a, relation := "admin",
         object := "bank:bank1" } : OpenFGATuple) ∈
        Banking.setup_authorization_tuples g) ∧
    (∀ m ∈ bank.managers,
      ({ user := mkRef "user" m, relation := "manager",
         object := "bank:bank1" } : OpenFGATuple) ∈
        Banking.setup_authorization_tuples g) := by
  constructor
  · intro a ha
    unfold Banking.setup_authorization_tuples
    rw [hbank]
    exact List.mem_append_left _ (List.mem_append_left _ (List.mem_append_left _ (List.mem_append_left _ (List.mem_map.mpr ⟨a, ha, rfl⟩))))
  · intro m hm
    unfold Banking.setup_authorization_tuples
    rw [hbank]
    exact List.mem_append_left _ (List.mem_append_left _ (List.mem_append_left _ (List.mem_append_right _ (List.mem_map.mpr ⟨m, hm, rfl⟩))))

theorem banking_tuples_branch1 (g : Banking.State) (branch : Banking.Branch)
    (hbranch : List.lookup "branch1" g.branches = some branch) :
    (({ user := "bank:bank1", relation := "parent_bank",
        object := "branch:branch1" } : OpenFGATuple) ∈
      Banking.setup_authorization_tuples g) ∧
    (∀ m, branch.manager_id = some m →
      ({ user := mkRef "user" m, relation := "manager",
         object := "branch:branch1" } : OpenFGATuple) ∈
        Banking.setup_authorization_tuples g) ∧
    (∀ c ∈ branch.tellers,
      ({ user := mkRef "user" c, relation := "teller",
         object := "branch:branch1" } : OpenFGATuple) ∈
        Banking.setup_authorization_tuples g) := by
  refine ⟨?_, fun m hm => ?_, fun c hc => ?_⟩
  · unfold Banking.setup_authorization_tuples
    rw [hbranch]
    exact List.mem_append_left _ (List.mem_append_left _ (List.mem_append_right _ (List.mem_cons_self _ _)))
  · unfold Banking.setup_authorization_tuples
    simp only [hbranch, hm]
    exact List.mem_append_left _ (List.mem_append_left _ (List.mem_append_right _ (List.mem_cons_of_mem _ (List.mem_append_left _ (List.mem_cons_self _ _)))))
  · unfold Banking.setup_authorization_tuples
    rw [hbranch]
    exact List.mem_append_left _ (List.mem_append_left _ (List.mem_append_right _ (List.mem_cons_of_mem _ (List.mem_append_right _ (List.mem_map.mpr ⟨c, hc, rfl⟩)))))

theorem banking_tuples_accounts (g : Banking.State) :
    ∀ p ∈ g.accounts,
      (({ user := mkRef "branch" p.2.parent_branch_id, relation := "parent_branch",
          object := mkRef "account" p.2.id } : OpenFGATuple) ∈
        Banking.setup_authorization_tuples g) ∧
      (∀ c ∈ p.2.owners,
        ({ user := mkRef "user" c, relation := "owner",
           object := mkRef "account" p.2.id } : OpenFGATuple) ∈
          Banking.setup_authorization_tuples g) ∧
      (∀ c ∈ p.2.co_owners,
        ({ user := mkRef "user" c, relation := "co_owner",
           object := mkRef "account" p.2.id } : OpenFGATuple) ∈
          Banking.setup_authorization_tuples g) := by
  intro p hp
  unfold Banking.setup_authorization_tuples
  refine ⟨?_, fun c hc => ?_, fun c hc => ?_⟩
  · exact List.mem_append_left _ (List.mem_append_right _ (List.mem_flatMap.mpr ⟨p.2, List.mem_map.mpr ⟨p, hp, rfl⟩, List.mem_cons_self _ _⟩))
  · exact List.mem_append_left _ (List.mem_append_right _ (List.mem_flatMap.mpr ⟨p.2, List.mem_map.mpr ⟨p, hp, rfl⟩, List.mem_cons_of_mem _ (List.mem_append_left _ (List.mem_map.mpr ⟨c, hc, rfl⟩))⟩))
  · exact List.mem_append_left _ (List.mem_append_right _ (List.mem_flatMap.mpr ⟨p.2, List.mem_map.mpr ⟨p, hp, rfl⟩, List.mem_cons_of_mem _ (List.mem_append_right _ (List.mem_map.mpr ⟨c, hc, rfl⟩))⟩))

theorem banking_tuples_loans (g : Banking.State) :
    ∀ p ∈ g.loans,
      (({ user := mkRef "branch" p.2.parent_branch_id, relation := "parent_branch",
          object := mkRef "loan" p.2.id } : OpenFGATuple) ∈
        Banking.setup_authorization_tuples g) ∧
      (({ user := mkRef "user" p.2.borrower_id, relation := "borrower",
          object := mkRef "loan" p.2.id } : OpenFGATuple) ∈
        Banking.setup_authorization_tuples g) ∧
      (∀ c ∈ p.2.co_borrowers,
        ({ user := mkRef "user" c, relation := "co_borrower",
           object := mkRef "loan" p.2.id } : OpenFGATuple) ∈
          Banking.setup_authorization_tuples g) ∧
      (({ user := mkRef "user" p.2.loan_officer_id, relation := "loan_officer",
          object := mkRef "loan" p.2.id } : OpenFGATuple) ∈
        Banking.setup_authorization_tuples g) := by
  intro p hp
  unfold Banking.setup_authorization_tuples
  refine ⟨?_, ?_, fun c hc => ?_, ?_⟩
  · exact List.mem_append_right _ (List.mem_flatMap.mpr ⟨p.2, List.mem_map.mpr ⟨p, hp, rfl⟩, List.mem_cons_self _ _⟩)
  · exact List.mem_append_right _ (List.mem_flatMap.mpr ⟨p.2, List.mem_map.mpr ⟨p, hp, rfl⟩, List.mem_cons_of_mem _ (List.mem_cons_self _ _)⟩)
  · exact List.mem_append_right _ (List.mem_flatMap.mpr ⟨p.2, List.mem_map.mpr ⟨p, hp, rfl⟩, List.mem_cons_of_mem _ (List.mem_cons_of_mem _ (List.mem_append_left _ (List.mem_map.mpr ⟨c, hc, rfl⟩)))⟩)
  · exact List.mem_append_right _ (List.mem_flatMap.mpr ⟨p.2, List.mem_map.mpr ⟨p, hp, rfl⟩, List.mem_cons_of_mem _ (List.mem_cons_of_mem _ (List.mem_append_right _ (List.mem_cons_self _ _)))⟩)

theorem genai_tuples_format (g : GenAI.State) :
    ∀ t ∈ GenAI.setup_authorization_tuples g,
      (∃ ty i, t.user = mkRef ty i ∧
        ty ∈ (["user", "organization", "knowledge_base", "ai_model",
               "rag_session", "document"] : List String)) ∧
      (∃ ty i, t.object = mkRef ty i ∧
        ty ∈ (["organization", "knowledge_base", "document", "ai_model",
               "rag_session", "rag_query"] : List String)) := by
  intro t ht
  unfold GenAI.setup_authorization_tuples at ht
  simp only [List.mem_append] at ht
  rcases ht with ((((ht | ht) | ht) | ht) | ht) | ht
  · rcases hor : List.lookup "org1" g.organizations with _ | org
    · rw [hor] at ht
      simp at ht
    · rw [hor] at ht
      rcases List.mem_append.mp ht with ht | ht
      · rcases List.mem_map.mp ht with ⟨a, _, rfl⟩
        exact ⟨⟨"user", a, rfl, by decide⟩, ⟨"organization", "org1", rfl, by decide⟩⟩
      · rcases List.mem_map.mp ht with ⟨m, _, rfl⟩
        exact ⟨⟨"user", m, rfl, by decide⟩, ⟨"organization", "org1", rfl, by decide⟩⟩
  · rcases List.mem_flatMap.mp ht with ⟨kb, _, hin⟩
    rcases List.mem_cons.mp hin with rfl | hin
    · exact ⟨⟨"organization", kb.parent_org_id, rfl, by decide⟩,
             ⟨"knowledge_base", kb.id, rfl, by decide⟩⟩
    rcases List.mem_append.mp hin with hin | hin
    · rcases List.mem_append.mp hin with hin | hin
      · rcases List.mem_map.mp hin with ⟨c, _, rfl⟩
        exact ⟨⟨"user", c, rfl, by decide⟩, ⟨"knowledge_base", kb.id, rfl, by decide⟩⟩
      · rcases List.mem_map.mp hin with ⟨c, _, rfl⟩
        exact ⟨⟨"user", c, rfl, by decide⟩, ⟨"knowledge_base", kb.id, rfl, by decide⟩⟩
    · rcases List.mem_map.mp hin with ⟨c, _, rfl⟩
      exact ⟨⟨"user", c, rfl, by decide⟩, ⟨"knowledge_base", kb.id, rfl, by decide⟩⟩
  · rcases List.mem_flatMap.mp ht with ⟨doc, _, hin⟩
    rcases List.mem_cons.mp hin with rfl | hin
    · exact ⟨⟨"knowledge_base", doc.parent_kb_id, rfl, by decide⟩,
             ⟨"document", doc.id, rfl, by decide⟩⟩
    rcases List.mem_cons.mp hin with rfl | hin
    · exact ⟨⟨"user", doc.owner_id, rfl, by decide⟩, ⟨"document", doc.id, rfl, by decide⟩⟩
    rcases List.mem_append.mp hin with hin | hin
    · rcases List.mem_map.mp hin with ⟨c, _, rfl⟩
      exact ⟨⟨"user", c, rfl, by decide⟩, ⟨"document", doc.id, rfl, by decide⟩⟩
    · rcases List.mem_map.mp hin with ⟨c, _, rfl⟩
      exact ⟨⟨"user", c, rfl, by decide⟩, ⟨"document", doc.id, rfl, by decide⟩⟩
  · rcases List.mem_flatMap.mp ht with ⟨model, _, hin⟩
    rcases List.mem_cons.mp hin with rfl | hin
    · exact ⟨⟨"organization", model.parent_org_id, rfl, by decide⟩,
             ⟨"ai_model", model.id, rfl, by decide⟩⟩
    rcases List.mem_append.mp hin with hin | hin
    · rcases List.mem_map.mp hin with ⟨c, _, rfl⟩
      exact ⟨⟨"user", c, rfl, by decide⟩, ⟨"ai_model", model.id, rfl, by decide⟩⟩
    · rcases List.mem_map.mp hin with ⟨c, _, rfl⟩
      exact ⟨⟨"user", c, rfl, by decide⟩, ⟨"ai_model", model.id, rfl, by decide⟩⟩
  · rcases List.mem_flatMap.mp ht with ⟨session, _, hin⟩
    rcases List.mem_cons.mp hin with rfl | hin
    · exact ⟨⟨"knowledge_base", session.parent_kb_id, rfl, by decide⟩,
             ⟨"rag_session", session.id, rfl, by decide⟩⟩
    rcases List.mem_cons.mp hin with rfl | hin
    · exact ⟨⟨"ai_model", session.parent_model_id, rfl, by decide⟩,
             ⟨"rag_session", session.id, rfl, by decide⟩⟩
    rcases List.mem_cons.mp hin with rfl | hin
    · exact ⟨⟨"user", session.owner_id, rfl, by decide⟩,
             ⟨"rag_session", session.id, rfl, by decide⟩⟩
    rcases List.mem_map.mp hin with ⟨c, _, rfl⟩
    exact ⟨⟨"user", c, rfl, by decide⟩, ⟨"rag_session", session.id, rfl, by decide⟩⟩
  · rcases List.mem_flatMap.mp ht with ⟨query, _, hin⟩
    rcases List.mem_cons.mp hin with rfl | hin
    · exact ⟨⟨"rag_session", query.parent_session_id, rfl, by decide⟩,
             ⟨"rag_query", query.id, rfl, by decide⟩⟩
    rcases List.mem_cons.mp hin with rfl | hin
    · exact ⟨⟨"user", query.initiated_by, rfl, by decide⟩,
             ⟨"rag_query", query.id, rfl, by decide⟩⟩
    rcases List.mem_map.mp hin with ⟨c, _, rfl⟩
    exact ⟨⟨"document", c, rfl, by decide⟩, ⟨"rag_query", query.id, rfl, by decide⟩⟩

theorem banking_tuples_format (g : Banking.State) :
    ∀ t ∈ Banking.setup_authorization_tuples g,
      (∃ ty i, t.user = mkRef ty i ∧
        ty ∈ (["user", "bank", "branch"] : List String)) ∧
      (∃ ty i, t.object = mkRef ty i ∧
        ty ∈ (["bank", "branch", "account", "loan"] : List String)) := by
  intro t ht
  unfold Banking.setup_authorization_tuples at ht
  simp only [List.mem_append] at ht
  rcases ht with ((ht | ht) | ht) | ht
  · rcases hb : List.lookup "bank1" g.banks with _ | bank
    · rw [hb] at ht
      simp at ht
    · rw [hb] at ht
      rcases List.mem_append.mp ht with ht | ht
      · rcases List.mem_map.mp ht with ⟨a, _, rfl⟩
        exact ⟨⟨"user", a, rfl, by decide⟩, ⟨"bank", "bank1", rfl, by decide⟩⟩
      · rcases List.mem_map.mp ht with ⟨m, _, rfl⟩
        exact ⟨⟨"user", m, rfl, by decide⟩, ⟨"bank", "bank1", rfl, by decide⟩⟩
  · rcases hb : List.lookup "branch1" g.branches with _ | branch
    · rw [hb] at ht
      simp at ht
    · rw [hb] at ht
      rcases List.mem_cons.mp ht with rfl | ht
      · exact ⟨⟨"bank", "bank1", rfl, by decide⟩,
               ⟨"branch", "branch1", rfl, by decide⟩⟩
      rcases List.mem_append.mp ht with ht | ht
      · rcases hm : branch.manager_id with _ | m
        · rw [hm] at ht
          simp at ht
        · rw [hm] at ht
          rcases List.mem_cons.mp ht with rfl | ht
          · exact ⟨⟨"user", m, rfl, by decide⟩, ⟨"branch", "branch1", rfl, by decide⟩⟩
          · simp at ht
      · rcases List.mem_map.mp ht with ⟨c, _, rfl⟩
        exact ⟨⟨"user", c, rfl, by decide⟩, ⟨"branch", "branch1", rfl, by decide⟩⟩
  · rcases List.mem_flatMap.mp ht with ⟨account, _, hin⟩
    rcases List.mem_cons.mp hin with rfl | hin
    · exact ⟨⟨"branch", account.parent_branch_id, rfl, by decide⟩,
             ⟨"account", account.id, rfl, by decide⟩⟩
    rcases List.mem_append.mp hin with hin | hin
    · rcases List.mem_map.mp hin with ⟨c, _, rfl⟩
      exact ⟨⟨"user", c, rfl, by decide⟩, ⟨"account", account.id, rfl, by decide⟩⟩
    · rcases List.mem_map.mp hin with ⟨c, _, rfl⟩
      exact ⟨⟨"user", c, rfl, by decide⟩, ⟨"account", account.id, rfl, by decide⟩⟩
  · rcases List.mem_flatMap.mp ht with ⟨loan, _, hin⟩
    rcases List.mem_cons.mp hin with rfl | hin
    · exact ⟨⟨"branch", loan.parent_branch_id, rfl, by decide⟩,
             ⟨"loan", loan.id, rfl, by decide⟩⟩
    rcases List.mem_cons.mp hin with rfl | hin
    · exact ⟨⟨"user", loan.borrower_id, rfl, by decide⟩, ⟨"loan", loan.id, rfl, by decide⟩⟩
    rcases List.mem_append.mp hin with hin | hin
    · rcases List.mem_map.mp hin with ⟨c, _, rfl⟩
      exact ⟨⟨"user", c, rfl, by decide⟩, ⟨"loan", loan.id, rfl, by decide⟩⟩
    · rcases List.mem_cons.mp hin with rfl | hin
      · exact ⟨⟨"user", loan.loan_officer_id, rfl, by decide⟩,
               ⟨"loan", loan.id, rfl, by decide⟩⟩
      · simp at hin

/-- Claim C9 as amended: every produced triple has `type:id`-formatted
user and object fields; and the produced set contains one triple per
member of every relation list plus one upward containment-edge triple per
contained entity for every entity in the fully-iterated families
(knowledge bases, documents, models, sessions, queries, accounts, loans)
and for the hardcoded `org1`, `bank1` and `branch1` — but not for other
organizations, banks or branches, which the materializer skips. -/
theorem tuple_materialization_characterized :
    (∀ (g : GenAI.State), ∀ t ∈ GenAI.setup_authorization_tuples g,
      (∃ ty i, t.user = mkRef ty i ∧
        ty ∈ (["user", "organization", "knowledge_base", "ai_model",
               "rag_session", "document"] : List String)) ∧
      (∃ ty i, t.object = mkRef ty i ∧
        ty ∈ (["organization", "knowledge_base", "document", "ai_model",
               "rag_session", "rag_query"] : List String))) ∧
    (∀ (g : Banking.State), ∀ t ∈ Banking.setup_authorization_tuples g,
      (∃ ty i, t.user = mkRef ty i ∧
        ty ∈ (["user", "bank", "branch"] : List String)) ∧
      (∃ ty i, t.object = mkRef ty i ∧
        ty ∈ (["bank", "branch", "account", "loan"] : List String))) ∧
    (∀ (g : GenAI.State) (org : GenAI.Organization),
      List.lookup "org1" g.organizations = some org →
      (∀ a ∈ org.admins,
        ({ user := mkRef "user" a, relation := "admin",
           object := "organization:org1" } : OpenFGATuple) ∈
          GenAI.setup_authorization_tuples g) ∧
      (∀ m ∈ org.members,
        ({ user := mkRef "user" m, relation := "member",
           object := "organization:org1" } : OpenFGATuple) ∈
          GenAI.setup_authorization_tuples g)) ∧
    (∀ (g : GenAI.State), ∀ p ∈ g.knowledge_bases,
      (({ user := mkRef "organization" p.2.parent_org_id, relation := "parent_org",
          object := mkRef "knowledge_base" p.2.id } : OpenFGATuple) ∈
        GenAI.setup_authorization_tuples g) ∧
      (∀ c ∈ p.2.curators,
        ({ user := mkRef "user" c, relation := "curator",
           object := mkRef "knowledge_base" p.2.id } : OpenFGATuple) ∈
          GenAI.setup_authorization_tuples g) ∧
      (∀ c ∈ p.2.contributors,
        ({ user := mkRef "user" c, relation := "contributor",
           object := mkRef "knowledge_base" p.2.id } : OpenFGATuple) ∈
          GenAI.setup_authorization_tuples g) ∧
      (∀ c ∈ p.2.readers,
        ({ user := mkRef "user" c, relation := "reader",
           object := mkRef "knowledge_base" p.2.id } : OpenFGATuple) ∈
          GenAI.setup_authorization_tuples g)) ∧
    (∀ (g : GenAI.State), ∀ p ∈ g.documents,
      (({ user := mkRef "knowledge_base" p.2.parent_kb_id, relation := "parent_kb",
          object := mkRef "document" p.2.id } : OpenFGATuple) ∈
        GenAI.setup_authorization_tuples g) ∧
      (({ user := mkRef "user" p.2.owner_id, relation := "owner",
          object := mkRef "document" p.2.id } : OpenFGATuple) ∈
        GenAI.setup_authorization_tuples g) ∧
      (∀ c ∈ p.2.editors,
        ({ user := mkRef "user" c, relation := "editor",
           object := mkRef "document" p.2.id } : OpenFGATuple) ∈
          GenAI.setup_authorization_tuples g) ∧
      (∀ c ∈ p.2.viewers,
        ({ user := mkRef "user" c, relation := "viewer",
           object := mkRef "document" p.2.id } : OpenFGATuple) ∈
          GenAI.setup_authorization_tuples g)) ∧
    (∀ (g : GenAI.State), ∀ p ∈ g.ai_models,
      (({ user := mkRef "organization" p.2.parent_org_id, relation := "parent_org",
          object := mkRef "ai_model" p.2.id } : OpenFGATuple) ∈
        GenAI.setup_authorization_tuples g) ∧
      (∀ c ∈ p.2.operators,
        ({ user := mkRef "user" c, relation := "operator",
           object := mkRef "ai_model" p.2.id } : OpenFGATuple) ∈
          GenAI.setup_authorization_tuples g) ∧
      (∀ c ∈ p.2.users,
        ({ user := mkRef "user" c, relation := "user",
           object := mkRef "ai_model" p.2.id } : OpenFGATuple) ∈
          GenAI.setup_authorization_tuples g)) ∧
    (∀ (g : GenAI.State), ∀ p ∈ g.rag_sessions,
      (({ user := mkRef "knowledge_base" p.2.parent_kb_id, relation := "parent_kb",
          object := mkRef "rag_session" p.2.id } : OpenFGATuple) ∈
        GenAI.setup_authorization_tuples g) ∧
      (({ user := mkRef "ai_model" p.2.parent_model_id, relation := "parent_model",
          object := mkRef "rag_session" p.2.id } : OpenFGATuple) ∈
        GenAI.setup_authorization_tuples g) ∧
      (({ user := mkRef "user" p.2.owner_id, relation := "owner",
          object := mkRef "rag_session" p.2.id } : OpenFGATuple) ∈
        GenAI.setup_authorization_tuples g) ∧
      (∀ c ∈ p.2.participants,
        ({ user := mkRef "user" c, relation := "participant",
           object := mkRef "rag_session" p.2.id } : OpenFGATuple) ∈
          GenAI.setup_authorization_tuples g)) ∧
    (∀ (g : GenAI.State), ∀ p ∈ g.rag_queries,
      (({ user := mkRef "rag_session" p.2.parent_session_id, relation := "parent_session",
          object := mkRef "rag_query" p.2.id } : OpenFGATuple) ∈
        GenAI.setup_authorization_tuples g) ∧
      (({ user := mkRef "user" p.2.initiated_by, relation := "initiated_by",
          object := mkRef "rag_query" p.2.id } : OpenFGATuple) ∈
        GenAI.setup_authorization_tuples g) ∧
      (∀ c ∈ p.2.queried_documents,
        ({ user := mkRef "document" c, relation := "queried_documents",
           object := mkRef "rag_query" p.2.id } : OpenFGATuple) ∈
          GenAI.setup_authorization_tuples g)) ∧
    (∀ (g : Banking.State) (bank : Banking.Bank),
      List.lookup "bank1" g.banks = some bank →
      (∀ a ∈ bank.admins,
        ({ user := mkRef "user" a, relation := "admin",
           object := "bank:bank1" } : OpenFGATuple) ∈
          Banking.setup_authorization_tuples g) ∧
      (∀ m ∈ bank.managers,
        ({ user := mkRef "user" m, relation := "manager",
           object := "bank:bank1" } : OpenFGATuple) ∈
          Banking.setup_authorization_tuples g)) ∧
    (∀ (g : Banking.State) (branch : Banking.Branch),
      List.lookup "branch1" g.branches = some branch →
      (({ user := "bank:bank1", relation := "parent_bank",
          object := "branch:branch1" } : OpenFGATuple) ∈
        Banking.setup_authorization_tuples g) ∧
      (∀ m, branch.manager_id = some m →
        ({ user := mkRef "user" m, relation := "manager",
           object := "branch:branch1" } : OpenFGATuple) ∈
          Banking.setup_authorization_tuples g) ∧
      (∀ c ∈ branch.tellers,
        ({ user := mkRef "user" c, relation := "teller",
           object := "branch:branch1" } : OpenFGATuple) ∈
          Banking.setup_authorization_tuples g)) ∧
    (∀ (g : Banking.State), ∀ p ∈ g.accounts,
      (({ user := mkRef "branch" p.2.parent_branch_id, relation := "parent_branch",
          object := mkRef "account" p.2.id } : OpenFGATuple) ∈
        Banking.setup_authorization_tuples g) ∧
      (∀ c ∈ p.2.owners,
        ({ user := mkRef "user" c, relation := "owner",
           object := mkRef "account" p.2.id } : OpenFGATuple) ∈
          Banking.setup_authorization_tuples g) ∧
      (∀ c ∈ p.2.co_owners,
        ({ user := mkRef "user" c, relation := "co_owner",
           object := mkRef "account" p.2.id } : OpenFGATuple) ∈
          Banking.setup_authorization_tuples g)) ∧
    (∀ (g : Banking.State), ∀ p ∈ g.loans,
      (({ user := mkRef "branch" p.2.parent_branch_id, relation := "parent_branch",
          object := mkRef "loan" p.2.id } : OpenFGATuple) ∈
        Banking.setup_authorization_tuples g) ∧
      (({ user := mkRef "user" p.2.borrower_id, relation := "borrower",
          object := mkRef "loan" p.2.id } : OpenFGATuple) ∈
        Banking.setup_authorization_tuples g) ∧
      (∀ c ∈ p.2.co_borrowers,
        ({ user := mkRef "user" c, relation := "co_borrower",
           object := mkRef "loan" p.2.id } : OpenFGATuple) ∈
          Banking.setup_authorization_tuples g) ∧
      (({ user := mkRef "user" p.2.loan_officer_id, relation := "loan_officer",
          object := mkRef "loan" p.2.id } : OpenFGATuple) ∈
        Banking.setup_authorization_tuples g)) :=
  ⟨genai_tuples_format, banking_tuples_format, genai_tuples_org1, genai_tuples_kbs,
   genai_tuples_docs, genai_tuples_models, genai_tuples_sessions, genai_tuples_queries,
   banking_tuples_bank1, banking_tuples_branch1, banking_tuples_accounts,
   banking_tuples_loans⟩

/-- Witness for C9 on the demo graphs: diana's admin triple and acc1's
containment-edge triple are materialized. -/
theorem tuple_materialization_characterized_witness :
    ({ user := "user:diana", relation := "admin",
       object := "organization:org1" } : OpenFGATuple) ∈
      GenAI.setup_authorization_tuples GenAI.demoState ∧
    ({ user := "branch:branch1", relation := "parent_branch",
       object := "account:acc1" } : OpenFGATuple) ∈
      Banking.setup_authorization_tuples Banking.demoState := by
  constructor
  · exact (tuple_materialization_characterized.2.2.1 GenAI.demoState GenAI.org1
      (by decide)).1 "diana" (by decide)
  · exact (tuple_materialization_characterized.2.2.2.2.2.2.2.2.2.2.1 Banking.demoState
      ("acc1", Banking.acc1) (by decide)).1

/-! ## Theorems: claim C5 — monotonicity of grants -/

theorem subl_refl (l : List String) : SubL l l := fun _ h => h

theorem subl_append (l : List String) (w : String) : SubL l (l ++ [w]) :=
  fun _ h => List.mem_append_left _ h

theorem subl_contains (l l' : List String) (h : SubL l l') (x : String)
    (hc : l.contains x = true) : l'.contains x = true := by
  have hm : x ∈ l := by simpa using hc
  simpa using h x hm

theorem subl_isEmpty_false (l l' : List String) (h : SubL l l')
    (he : l.isEmpty = false) : l'.isEmpty = false := by
  cases l with
  | nil => simp at he
  | cons a as =>
    have ha : a ∈ l' := h a (List.mem_cons_self a as)
    cases l' with
    | nil => simp at ha
    | cons b bs => rfl

theorem optRel_refl {T : Type} (R : T → T → Prop) (hrefl : ∀ v, R v v) :
    ∀ o : Option T, OptRel R o o := by
  intro o
  cases o with
  | none => trivial
  | some v => exact hrefl v

theorem optRel_lookup_updAssoc {T : Type} (R : T → T → Prop) (m : List (String × T))
    (k : String) (f : T → T) (hrefl : ∀ v, R v v) (hf : ∀ v, R v (f v)) :
    ∀ k', OptRel R (List.lookup k' m) (List.lookup k' (updAssoc m k f)) := by
  intro k'
  induction m with
  | nil => simp [updAssoc, List.lookup, OptRel]
  | cons p ps ih =>
    cases p with
    | mk p1 p2 =>
      simp only [updAssoc, List.map_cons] at ih ⊢
      by_cases hp : p1 = k
      · rw [if_pos hp]
        simp only [List.lookup]
        cases hb : (k' == p1)
        · exact ih
        · exact hf p2
      · rw [if_neg hp]
        simp only [List.lookup]
        cases hb : (k' == p1)
        · exact ih
        · exact hrefl p2
theorem mono_is_kb_curator (g g' : GenAI.State) (hle : GenAI.StateLE g g')
    (i u : String) (h : GenAI.is_kb_curator g i u = true) : GenAI.is_kb_curator g' i u = true := by
  unfold GenAI.is_kb_curator at h ⊢
  have hrel := hle.kbs i
  cases hl : List.lookup i g.knowledge_bases with
  | none => rw [hl] at h; simp at h
  | some e =>
    rw [hl] at h hrel
    cases hl2 : List.lookup i g'.knowledge_bases with
    | none => rw [hl2] at hrel; exact (hrel : False).elim
    | some e2 =>
      rw [hl2] at hrel
      have hee : GenAI.KbLE e e2 := hrel
      exact subl_contains _ _ hee.2.1 u h

theorem mono_is_kb_contributor (g g' : GenAI.State) (hle : GenAI.StateLE g g')
    (i u : String) (h : GenAI.is_kb_contributor g i u = true) : GenAI.is_kb_contributor g' i u = true := by
  unfold GenAI.is_kb_contributor at h ⊢
  have hrel := hle.kbs i
  cases hl : List.lookup i g.knowledge_bases with
  | none => rw [hl] at h; simp at h
  | some e =>
    rw [hl] at h hrel
    cases hl2 : List.lookup i g'.knowledge_bases with
    | none => rw [hl2] at hrel; exact (hrel : False).elim
    | some e2 =>
      rw [hl2] at hrel
      have hee : GenAI.KbLE e e2 := hrel
      exact subl_contains _ _ hee.2.2.1 u h

theorem mono_is_kb_reader (g g' : GenAI.State) (hle : GenAI.StateLE g g')
    (i u : String) (h : GenAI.is_kb_reader g i u = true) : GenAI.is_kb_reader g' i u = true := by
  unfold GenAI.is_kb_reader at h ⊢
  have hrel := hle.kbs i
  cases hl : List.lookup i g.knowledge_bases with
  | none => rw [hl] at h; simp at h
  | some e =>
    rw [hl] at h hrel
    cases hl2 : List.lookup i g'.knowledge_bases with
    | none => rw [hl2] at hrel; exact (hrel : False).elim
    | some e2 =>
      rw [hl2] at hrel
      have hee : GenAI.KbLE e e2 := hrel
      exact subl_contains _ _ hee.2.2.2 u h

theorem mono_is_org_member_for_kb (g g' : GenAI.State) (hle : GenAI.StateLE g g')
    (i u : String) (h : GenAI.is_org_member_for_kb g i u = true) : GenAI.is_org_member_for_kb g' i u = true := by
  unfold GenAI.is_org_member_for_kb at h ⊢
  have hrel := hle.kbs i
  cases hl : List.lookup i g.knowledge_bases with
  | none => rw [hl] at h; simp at h
  | some e =>
    rw [hl] at h hrel
    cases hl2 : List.lookup i g'.knowledge_bases with
    | none => rw [hl2] at hrel; exact (hrel : False).elim
    | some e2 =>
      rw [hl2] at hrel
      have hee : GenAI.KbLE e e2 := hrel
      dsimp only at h ⊢
      rw [hee.1]
      have horel := hle.orgs e.parent_org_id
      cases ho : List.lookup e.parent_org_id g.organizations with
      | none => rw [ho] at h; simp at h
      | some org =>
        rw [ho] at h horel
        cases ho2 : List.lookup e.parent_org_id g'.organizations with
        | none => rw [ho2] at horel; exact (horel : False).elim
        | some org2 =>
          rw [ho2] at horel
          have hoo : GenAI.OrgLE org org2 := horel
          rcases Bool.or_eq_true _ _ |>.mp h with hm | hm
          · exact Bool.or_eq_true _ _ |>.mpr (Or.inl (subl_contains _ _ hoo.2 u hm))
          · exact Bool.or_eq_true _ _ |>.mpr (Or.inr (subl_contains _ _ hoo.1 u hm))

theorem mono_is_org_admin_for_kb (g g' : GenAI.State) (hle : GenAI.StateLE g g')
    (i u : String) (h : GenAI.is_org_admin_for_kb g i u = true) : GenAI.is_org_admin_for_kb g' i u = true := by
  unfold GenAI.is_org_admin_for_kb at h ⊢
  have hrel := hle.kbs i
  cases hl : List.lookup i g.knowledge_bases with
  | none => rw [hl] at h; simp at h
  | some e =>
    rw [hl] at h hrel
    cases hl2 : List.lookup i g'.knowledge_bases with
    | none => rw [hl2] at hrel; exact (hrel : False).elim
    | some e2 =>
      rw [hl2] at hrel
      have hee : GenAI.KbLE e e2 := hrel
      dsimp only at h ⊢
      rw [hee.1]
      have horel := hle.orgs e.parent_org_id
      cases ho : List.lookup e.parent_org_id g.organizations with
      | none => rw [ho] at h; simp at h
      | some org =>
        rw [ho] at h horel
        cases ho2 : List.lookup e.parent_org_id g'.organizations with
        | none => rw [ho2] at horel; exact (horel : False).elim
        | some org2 =>
          rw [ho2] at horel
          have hoo : GenAI.OrgLE org org2 := horel
          exact subl_contains _ _ hoo.1 u h

theorem mono_is_document_owner (g g' : GenAI.State) (hle : GenAI.StateLE g g')
    (i u : String) (h : GenAI.is_document_owner g i u = true) : GenAI.is_document_owner g' i u = true := by
  unfold GenAI.is_document_owner at h ⊢
  have hrel := hle.docs i
  cases hl : List.lookup i g.documents with
  | none => rw [hl] at h; simp at h
  | some e =>
    rw [hl] at h hrel
    cases hl2 : List.lookup i g'.documents with
    | none => rw [hl2] at hrel; exact (hrel : False).elim
    | some e2 =>
      rw [hl2] at hrel
      have hee : GenAI.DocLE e e2 := hrel
      dsimp only at h ⊢
      rw [hee.1]
      exact h

theorem mono_is_document_editor (g g' : GenAI.State) (hle : GenAI.StateLE g g')
    (i u : String) (h : GenAI.is_document_editor g i u = true) : GenAI.is_document_editor g' i u = true := by
  unfold GenAI.is_document_editor at h ⊢
  have hrel := hle.docs i
  cases hl : List.lookup i g.documents with
  | none => rw [hl] at h; simp at h
  | some e =>
    rw [hl] at h hrel
    cases hl2 : List.lookup i g'.documents with
    | none => rw [hl2] at hrel; exact (hrel : False).elim
    | some e2 =>
      rw [hl2] at hrel
      have hee : GenAI.DocLE e e2 := hrel
      exact subl_contains _ _ hee.2.2.1 u h

theorem mono_is_document_viewer (g g' : GenAI.State) (hle : GenAI.StateLE g g')
    (i u : String) (h : GenAI.is_document_viewer g i u = true) : GenAI.is_document_viewer g' i u = true := by
  unfold GenAI.is_document_viewer at h ⊢
  have hrel := hle.docs i
  cases hl : List.lookup i g.documents with
  | none => rw [hl] at h; simp at h
  | some e =>
    rw [hl] at h hrel
    cases hl2 : List.lookup i g'.documents with
    | none => rw [hl2] at hrel; exact (hrel : False).elim
    | some e2 =>
      rw [hl2] at hrel
      have hee : GenAI.DocLE e e2 := hrel
      exact subl_contains _ _ hee.2.2.2 u h

theorem mono_is_model_operator (g g' : GenAI.State) (hle : GenAI.StateLE g g')
    (i u : String) (h : GenAI.is_model_operator g i u = true) : GenAI.is_model_operator g' i u = true := by
  unfold GenAI.is_model_operator at h ⊢
  have hrel := hle.models i
  cases hl : List.lookup i g.ai_models with
  | none => rw [hl] at h; simp at h
  | some e =>
    rw [hl] at h hrel
    cases hl2 : List.lookup i g'.ai_models with
    | none => rw [hl2] at hrel; exact (hrel : False).elim
    | some e2 =>
      rw [hl2] at hrel
      have hee : GenAI.ModelLE e e2 := hrel
      exact subl_contains _ _ hee.2.1 u h

theorem mono_is_model_user (g g' : GenAI.State) (hle : GenAI.StateLE g g')
    (i u : String) (h : GenAI.is_model_user g i u = true) : GenAI.is_model_user g' i u = true := by
  unfold GenAI.is_model_user at h ⊢
  have hrel := hle.models i
  cases hl : List.lookup i g.ai_models with
  | none => rw [hl] at h; simp at h
  | some e =>
    rw [hl] at h hrel
    cases hl2 : List.lookup i g'.ai_models with
    | none => rw [hl2] at hrel; exact (hrel : False).elim
    | some e2 =>
      rw [hl2] at hrel
      have hee : GenAI.ModelLE e e2 := hrel
      exact subl_contains _ _ hee.2.2 u h

theorem mono_is_org_member_for_model (g g' : GenAI.State) (hle : GenAI.StateLE g g')
    (i u : String) (h : GenAI.is_org_member_for_model g i u = true) : GenAI.is_org_member_for_model g' i u = true := by
  unfold GenAI.is_org_member_for_model at h ⊢
  have hrel := hle.models i
  cases hl : List.lookup i g.ai_models with
  | none => rw [hl] at h; simp at h
  | some e =>
    rw [hl] at h hrel
    cases hl2 : List.lookup i g'.ai_models with
    | none => rw [hl2] at hrel; exact (hrel : False).elim
    | some e2 =>
      rw [hl2] at hrel
      have hee : GenAI.ModelLE e e2 := hrel
      dsimp only at h ⊢
      rw [hee.1]
      have horel := hle.orgs e.parent_org_id
      cases ho : List.lookup e.parent_org_id g.organizations with
      | none => rw [ho] at h; simp at h
      | some org =>
        rw [ho] at h horel
        cases ho2 : List.lookup e.parent_org_id g'.organizations with
        | none => rw [ho2] at horel; exact (horel : False).elim
        | some org2 =>
          rw [ho2] at horel
          have hoo : GenAI.OrgLE org org2 := horel
          rcases Bool.or_eq_true _ _ |>.mp h with hm | hm
          · exact Bool.or_eq_true _ _ |>.mpr (Or.inl (subl_contains _ _ hoo.2 u hm))
          · exact Bool.or_eq_true _ _ |>.mpr (Or.inr (subl_contains _ _ hoo.1 u hm))

theorem mono_is_org_admin_for_model (g g' : GenAI.State) (hle : GenAI.StateLE g g')
    (i u : String) (h : GenAI.is_org_admin_for_model g i u = true) : GenAI.is_org_admin_for_model g' i u = true := by
  unfold GenAI.is_org_admin_for_model at h ⊢
  have hrel := hle.models i
  cases hl : List.lookup i g.ai_models with
  | none => rw [hl] at h; simp at h
  | some e =>
    rw [hl] at h hrel
    cases hl2 : List.lookup i g'.ai_models with
    | none => rw [hl2] at hrel; exact (hrel : False).elim
    | some e2 =>
      rw [hl2] at hrel
      have hee : GenAI.ModelLE e e2 := hrel
      dsimp only at h ⊢
      rw [hee.1]
      have horel := hle.orgs e.parent_org_id
      cases ho : List.lookup e.parent_org_id g.organizations with
      | none => rw [ho] at h; simp at h
      | some org =>
        rw [ho] at h horel
        cases ho2 : List.lookup e.parent_org_id g'.organizations with
        | none => rw [ho2] at horel; exact (horel : False).elim
        | some org2 =>
          rw [ho2] at horel
          have hoo : GenAI.OrgLE org org2 := horel
          exact subl_contains _ _ hoo.1 u h

theorem mono_is_session_owner (g g' : GenAI.State) (hle : GenAI.StateLE g g')
    (i u : String) (h : GenAI.is_session_owner g i u = true) : GenAI.is_session_owner g' i u = true := by
  unfold GenAI.is_session_owner at h ⊢
  have hrel := hle.sessions i
  cases hl : List.lookup i g.rag_sessions with
  | none => rw [hl] at h; simp at h
  | some e =>
    rw [hl] at h hrel
    cases hl2 : List.lookup i g'.rag_sessions with
    | none => rw [hl2] at hrel; exact (hrel : False).elim
    | some e2 =>
      rw [hl2] at hrel
      have hee : GenAI.SessLE e e2 := hrel
      dsimp only at h ⊢
      rw [hee.1]
      exact h

theorem mono_is_session_participant (g g' : GenAI.State) (hle : GenAI.StateLE g g')
    (i u : String) (h : GenAI.is_session_participant g i u = true) : GenAI.is_session_participant g' i u = true := by
  unfold GenAI.is_session_participant at h ⊢
  have hrel := hle.sessions i
  cases hl : List.lookup i g.rag_sessions with
  | none => rw [hl] at h; simp at h
  | some e =>
    rw [hl] at h hrel
    cases hl2 : List.lookup i g'.rag_sessions with
    | none => rw [hl2] at hrel; exact (hrel : False).elim
    | some e2 =>
      rw [hl2] at hrel
      have hee : GenAI.SessLE e e2 := hrel
      exact subl_contains _ _ hee.2.2 u h

theorem mono_is_query_initiator (g g' : GenAI.State) (hle : GenAI.StateLE g g')
    (i u : String) (h : GenAI.is_query_initiator g i u = true) :
    GenAI.is_query_initiator g' i u = true := by
  unfold GenAI.is_query_initiator at h ⊢
  rw [← hle.queries i]
  exact h
theorem mono_check_kb_view (g g2 : GenAI.State) (hle : GenAI.StateLE g g2)
    (req : AuthorizationRequest) (h : (GenAI.check_kb_view_permission g req).allowed = true) :
    (GenAI.check_kb_view_permission g2 req).allowed = true := by
  simp only [GenAI.check_kb_view_permission] at h ⊢
  split at h
  case isTrue hc =>
    split
    · rfl
    case isFalse hd =>
        refine absurd ?_ hd
        simp only [Bool.or_eq_true] at hc ⊢
        rcases hc with (h1 | h1) | h1
        · exact Or.inl (Or.inl (mono_is_kb_curator g g2 hle _ _ h1))
        · exact Or.inl (Or.inr (mono_is_kb_contributor g g2 hle _ _ h1))
        · exact Or.inr (mono_is_kb_reader g g2 hle _ _ h1)
  case isFalse hc =>
    split at h
    case isTrue hc2 =>
      split
      · rfl
      case isFalse hd =>
        split
        · rfl
        case isFalse hd2 => exact absurd (mono_is_org_member_for_kb g g2 hle _ _ hc2) hd2
    case isFalse hc2 => simp at h

theorem mono_check_kb_contribute (g g2 : GenAI.State) (hle : GenAI.StateLE g g2)
    (req : AuthorizationRequest) (h : (GenAI.check_kb_contribute_permission g req).allowed = true) :
    (GenAI.check_kb_contribute_permission g2 req).allowed = true := by
  simp only [GenAI.check_kb_contribute_permission] at h ⊢
  split at h
  case isTrue hc =>
    split
    · rfl
    case isFalse hd =>
        refine absurd ?_ hd
        simp only [Bool.or_eq_true] at hc ⊢
        rcases hc with h1 | h1
        · exact Or.inl (mono_is_kb_curator g g2 hle _ _ h1)
        · exact Or.inr (mono_is_kb_contributor g g2 hle _ _ h1)
  case isFalse hc => simp at h

theorem mono_check_kb_curate (g g2 : GenAI.State) (hle : GenAI.StateLE g g2)
    (req : AuthorizationRequest) (h : (GenAI.check_kb_curate_permission g req).allowed = true) :
    (GenAI.check_kb_curate_permission g2 req).allowed = true := by
  simp only [GenAI.check_kb_curate_permission] at h ⊢
  split at h
  case isTrue hc =>
    split
    · rfl
    case isFalse hd =>
        exact absurd (mono_is_kb_curator g g2 hle _ _ hc) hd
  case isFalse hc => simp at h

theorem mono_check_kb_admin (g g2 : GenAI.State) (hle : GenAI.StateLE g g2)
    (req : AuthorizationRequest) (h : (GenAI.check_kb_admin_permission g req).allowed = true) :
    (GenAI.check_kb_admin_permission g2 req).allowed = true := by
  simp only [GenAI.check_kb_admin_permission] at h ⊢
  split at h
  case isTrue hc =>
    split
    · rfl
    case isFalse hd =>
        refine absurd ?_ hd
        simp only [Bool.or_eq_true] at hc ⊢
        rcases hc with h1 | h1
        · exact Or.inl (mono_is_kb_curator g g2 hle _ _ h1)
        · exact Or.inr (mono_is_org_admin_for_kb g g2 hle _ _ h1)
  case isFalse hc => simp at h

theorem mono_check_model_use (g g2 : GenAI.State) (hle : GenAI.StateLE g g2)
    (req : AuthorizationRequest) (h : (GenAI.check_model_use_permission g req).allowed = true) :
    (GenAI.check_model_use_permission g2 req).allowed = true := by
  simp only [GenAI.check_model_use_permission] at h ⊢
  split at h
  case isTrue hc =>
    split
    · rfl
    case isFalse hd =>
        refine absurd ?_ hd
        simp only [Bool.or_eq_true] at hc ⊢
        rcases hc with h1 | h1
        · exact Or.inl (mono_is_model_operator g g2 hle _ _ h1)
        · exact Or.inr (mono_is_model_user g g2 hle _ _ h1)
  case isFalse hc =>
    split at h
    case isTrue hc2 =>
      split
      · rfl
      case isFalse hd =>
        split
        · rfl
        case isFalse hd2 => exact absurd (mono_is_org_member_for_model g g2 hle _ _ hc2) hd2
    case isFalse hc2 => simp at h

theorem mono_check_model_configure (g g2 : GenAI.State) (hle : GenAI.StateLE g g2)
    (req : AuthorizationRequest) (h : (GenAI.check_model_configure_permission g req).allowed = true) :
    (GenAI.check_model_configure_permission g2 req).allowed = true := by
  simp only [GenAI.check_model_configure_permission] at h ⊢
  split at h
  case isTrue hc =>
    split
    · rfl
    case isFalse hd =>
        refine absurd ?_ hd
        simp only [Bool.or_eq_true] at hc ⊢
        rcases hc with h1 | h1
        · exact Or.inl (mono_is_model_operator g g2 hle _ _ h1)
        · exact Or.inr (mono_is_org_admin_for_model g g2 hle _ _ h1)
  case isFalse hc => simp at h

theorem mono_check_model_admin (g g2 : GenAI.State) (hle : GenAI.StateLE g g2)
    (req : AuthorizationRequest) (h : (GenAI.check_model_admin_permission g req).allowed = true) :
    (GenAI.check_model_admin_permission g2 req).allowed = true := by
  simp only [GenAI.check_model_admin_permission] at h ⊢
  split at h
  case isTrue hc =>
    split
    · rfl
    case isFalse hd =>
        exact absurd (mono_is_model_operator g g2 hle _ _ hc) hd
  case isFalse hc => simp at h

theorem mono_check_session_view (g g2 : GenAI.State) (hle : GenAI.StateLE g g2)
    (req : AuthorizationRequest) (h : (GenAI.check_session_view_permission g req).allowed = true) :
    (GenAI.check_session_view_permission g2 req).allowed = true := by
  simp only [GenAI.check_session_view_permission] at h ⊢
  split at h
  case isTrue hc =>
    split
    · rfl
    case isFalse hd =>
        refine absurd ?_ hd
        simp only [Bool.or_eq_true] at hc ⊢
        rcases hc with h1 | h1
        · exact Or.inl (mono_is_session_owner g g2 hle _ _ h1)
        · exact Or.inr (mono_is_session_participant g g2 hle _ _ h1)
  case isFalse hc => simp at h
theorem mono_can_view_kb_for_document (g g2 : GenAI.State) (hle : GenAI.StateLE g g2)
    (i u : String) (h : GenAI.can_view_kb_for_document g i u = true) : GenAI.can_view_kb_for_document g2 i u = true := by
  unfold GenAI.can_view_kb_for_document at h ⊢
  have hrel := hle.docs i
  cases hl : List.lookup i g.documents with
  | none => rw [hl] at h; simp at h
  | some e =>
    rw [hl] at h hrel
    cases hl2 : List.lookup i g2.documents with
    | none => rw [hl2] at hrel; exact (hrel : False).elim
    | some e2 =>
      rw [hl2] at hrel
      have hee : GenAI.DocLE e e2 := hrel
      dsimp only at h ⊢
      rw [hee.2.1]
      exact mono_check_kb_view g g2 hle _ h

theorem mono_can_contribute_to_kb_for_document (g g2 : GenAI.State) (hle : GenAI.StateLE g g2)
    (i u : String) (h : GenAI.can_contribute_to_kb_for_document g i u = true) : GenAI.can_contribute_to_kb_for_document g2 i u = true := by
  unfold GenAI.can_contribute_to_kb_for_document at h ⊢
  have hrel := hle.docs i
  cases hl : List.lookup i g.documents with
  | none => rw [hl] at h; simp at h
  | some e =>
    rw [hl] at h hrel
    cases hl2 : List.lookup i g2.documents with
    | none => rw [hl2] at hrel; exact (hrel : False).elim
    | some e2 =>
      rw [hl2] at hrel
      have hee : GenAI.DocLE e e2 := hrel
      dsimp only at h ⊢
      rw [hee.2.1]
      exact mono_check_kb_contribute g g2 hle _ h

theorem mono_can_curate_kb_for_document (g g2 : GenAI.State) (hle : GenAI.StateLE g g2)
    (i u : String) (h : GenAI.can_curate_kb_for_document g i u = true) : GenAI.can_curate_kb_for_document g2 i u = true := by
  unfold GenAI.can_curate_kb_for_document at h ⊢
  have hrel := hle.docs i
  cases hl : List.lookup i g.documents with
  | none => rw [hl] at h; simp at h
  | some e =>
    rw [hl] at h hrel
    cases hl2 : List.lookup i g2.documents with
    | none => rw [hl2] at hrel; exact (hrel : False).elim
    | some e2 =>
      rw [hl2] at hrel
      have hee : GenAI.DocLE e e2 := hrel
      dsimp only at h ⊢
      rw [hee.2.1]
      exact mono_check_kb_curate g g2 hle _ h

theorem mono_can_view_session_kb (g g2 : GenAI.State) (hle : GenAI.StateLE g g2)
    (i u : String) (h : GenAI.can_view_session_kb g i u = true) :
    GenAI.can_view_session_kb g2 i u = true := by
  unfold GenAI.can_view_session_kb at h ⊢
  have hrel := hle.sessions i
  cases hl : List.lookup i g.rag_sessions with
  | none => rw [hl] at h; simp at h
  | some e =>
    rw [hl] at h hrel
    cases hl2 : List.lookup i g2.rag_sessions with
    | none => rw [hl2] at hrel; exact (hrel : False).elim
    | some e2 =>
      rw [hl2] at hrel
      have hee : GenAI.SessLE e e2 := hrel
      dsimp only at h ⊢
      rw [hee.2.1]
      exact mono_check_kb_view g g2 hle _ h

theorem mono_can_view_query_session (g g2 : GenAI.State) (hle : GenAI.StateLE g g2)
    (i u : String) (h : GenAI.can_view_query_session g i u = true) :
    GenAI.can_view_query_session g2 i u = true := by
  unfold GenAI.can_view_query_session at h ⊢
  rw [← hle.queries i]
  cases hl : List.lookup i g.rag_queries with
  | none => rw [hl] at h; simp at h
  | some q =>
    rw [hl] at h
    dsimp only at h ⊢
    exact mono_check_session_view g g2 hle _ h

theorem mono_check_document_view (g g2 : GenAI.State) (hle : GenAI.StateLE g g2)
    (req : AuthorizationRequest)
    (h : (GenAI.check_document_view_permission g req).allowed = true) :
    (GenAI.check_document_view_permission g2 req).allowed = true := by
  simp only [GenAI.check_document_view_permission] at h ⊢
  split at h
  case isTrue hc =>
    split
    · rfl
    case isFalse hd =>
      refine absurd ?_ hd
      simp only [Bool.or_eq_true] at hc ⊢
      rcases hc with (h1 | h1) | h1
      · exact Or.inl (Or.inl (mono_is_document_owner g g2 hle _ _ h1))
      · exact Or.inl (Or.inr (mono_is_document_editor g g2 hle _ _ h1))
      · exact Or.inr (mono_is_document_viewer g g2 hle _ _ h1)
  case isFalse hc =>
    split
    · rfl
    case isFalse hd =>
      have hrel := hle.docs (seg 1 req.object)
      cases hl : List.lookup (seg 1 req.object) g.documents with
      | none => rw [hl] at h; simp at h
      | some doc =>
        rw [hl] at h hrel
        cases hl2 : List.lookup (seg 1 req.object) g2.documents with
        | none => rw [hl2] at hrel; exact (hrel : False).elim
        | some doc2 =>
          rw [hl2] at hrel
          have hdd : GenAI.DocLE doc doc2 := hrel
          dsimp only at h ⊢
          split at h
          · rename_i hemp
            split at h
            · rename_i hcu
              have hcu2 := mono_can_curate_kb_for_document g g2 hle _ _ hcu
              by_cases hemp2 : (doc2.viewers.isEmpty && doc2.editors.isEmpty) = true
              · rw [if_pos hemp2, if_pos hcu2]
              · rw [if_neg hemp2, if_pos (genai_curate_le_view g2 _ _ hcu2)]
            · simp at h
          · rename_i hemp
            split at h
            · rename_i hvw
              have hor : doc.viewers.isEmpty = false ∨ doc.editors.isEmpty = false := by
                cases hv : doc.viewers.isEmpty <;> cases he2 : doc.editors.isEmpty <;>
                  simp_all
              have hne2 : (doc2.viewers.isEmpty && doc2.editors.isEmpty) = false := by
                rcases hor with hv | hev
                · simp [subl_isEmpty_false _ _ hdd.2.2.2 hv]
                · simp [subl_isEmpty_false _ _ hdd.2.2.1 hev]
              rw [if_neg (by simp [hne2])]
              rw [if_pos (mono_can_view_kb_for_document g g2 hle _ _ hvw)]
            · simp at h
theorem mono_check_document_edit (g g2 : GenAI.State) (hle : GenAI.StateLE g g2)
    (req : AuthorizationRequest)
    (h : (GenAI.check_document_edit_permission g req).allowed = true) :
    (GenAI.check_document_edit_permission g2 req).allowed = true := by
  simp only [GenAI.check_document_edit_permission] at h ⊢
  split at h
  case isTrue hc =>
    split
    · rfl
    case isFalse hd =>
      refine absurd ?_ hd
      simp only [Bool.or_eq_true] at hc ⊢
      rcases hc with h1 | h1
      · exact Or.inl (mono_is_document_owner g g2 hle _ _ h1)
      · exact Or.inr (mono_is_document_editor g g2 hle _ _ h1)
  case isFalse hc =>
    split at h
    case isTrue hc2 =>
      split
      · rfl
      case isFalse hd =>
        split
        · rfl
        case isFalse hd2 =>
          exact absurd (mono_can_contribute_to_kb_for_document g g2 hle _ _ hc2) hd2
    case isFalse hc2 => simp at h

theorem mono_check_document_delete (g g2 : GenAI.State) (hle : GenAI.StateLE g g2)
    (req : AuthorizationRequest)
    (h : (GenAI.check_document_delete_permission g req).allowed = true) :
    (GenAI.check_document_delete_permission g2 req).allowed = true := by
  simp only [GenAI.check_document_delete_permission] at h ⊢
  split at h
  case isTrue hc =>
    split
    · rfl
    case isFalse hd => exact absurd (mono_is_document_owner g g2 hle _ _ hc) hd
  case isFalse hc =>
    split at h
    case isTrue hc2 =>
      split
      · rfl
      case isFalse hd =>
        split
        · rfl
        case isFalse hd2 =>
          exact absurd (mono_can_curate_kb_for_document g g2 hle _ _ hc2) hd2
    case isFalse hc2 => simp at h

theorem mono_check_session_document_access (g g2 : GenAI.State) (hle : GenAI.StateLE g g2)
    (req : AuthorizationRequest)
    (h : (GenAI.check_session_document_access_permission g req).allowed = true) :
    (GenAI.check_session_document_access_permission g2 req).allowed = true := by
  simp only [GenAI.check_session_document_access_permission] at h ⊢
  split at h
  case isTrue hc =>
    split
    · rfl
    case isFalse hd =>
      refine absurd ?_ hd
      simp only [Bool.and_eq_true, Bool.or_eq_true] at hc ⊢
      rcases hc with ⟨ho, hv⟩
      refine ⟨?_, mono_can_view_session_kb g g2 hle _ _ hv⟩
      rcases ho with h1 | h1
      · exact Or.inl (mono_is_session_owner g g2 hle _ _ h1)
      · exact Or.inr (mono_is_session_participant g g2 hle _ _ h1)
  case isFalse hc => simp at h

theorem mono_check_query_view (g g2 : GenAI.State) (hle : GenAI.StateLE g g2)
    (req : AuthorizationRequest)
    (h : (GenAI.check_query_view_permission g req).allowed = true) :
    (GenAI.check_query_view_permission g2 req).allowed = true := by
  simp only [GenAI.check_query_view_permission] at h ⊢
  split at h
  case isTrue hc =>
    split
    · rfl
    case isFalse hd => exact absurd (mono_is_query_initiator g g2 hle _ _ hc) hd
  case isFalse hc =>
    split at h
    case isTrue hc2 =>
      split
      · rfl
      case isFalse hd =>
        split
        · rfl
        case isFalse hd2 =>
          exact absurd (mono_can_view_query_session g g2 hle _ _ hc2) hd2
    case isFalse hc2 => simp at h

theorem mono_can_access_all_queried_documents (g g2 : GenAI.State) (hle : GenAI.StateLE g g2)
    (i u : String) (h : GenAI.can_access_all_queried_documents g i u = true) :
    GenAI.can_access_all_queried_documents g2 i u = true := by
  unfold GenAI.can_access_all_queried_documents at h ⊢
  rw [← hle.queries i]
  cases hl : List.lookup i g.rag_queries with
  | none => rw [hl] at h; simp at h
  | some q =>
    rw [hl] at h
    dsimp only at h ⊢
    simp only [List.all_eq_true] at h ⊢
    intro d hd
    exact mono_check_document_view g g2 hle _ (h d hd)

theorem mono_check_query_results (g g2 : GenAI.State) (hle : GenAI.StateLE g g2)
    (req : AuthorizationRequest)
    (h : (GenAI.check_query_results_permission g req).allowed = true) :
    (GenAI.check_query_results_permission g2 req).allowed = true := by
  simp only [GenAI.check_query_results_permission] at h ⊢
  split at h
  case isTrue hc =>
    split
    · rfl
    case isFalse hd =>
      refine absurd ?_ hd
      simp only [Bool.and_eq_true] at hc ⊢
      exact ⟨mono_check_query_view g g2 hle _ hc.1,
             mono_can_access_all_queried_documents g g2 hle _ _ hc.2⟩
  case isFalse hc => simp at h

theorem mono_check_authorization (g g2 : GenAI.State) (hle : GenAI.StateLE g g2)
    (req : AuthorizationRequest)
    (h : (GenAI.check_authorization g req).allowed = true) :
    (GenAI.check_authorization g2 req).allowed = true := by
  simp only [GenAI.check_authorization] at h ⊢
  by_cases h1 : req.relation = "can_view" ∧ seg 0 req.object = "knowledge_base"
  · rw [if_pos h1] at h ⊢
    exact mono_check_kb_view g g2 hle req h
  rw [if_neg h1] at h ⊢
  by_cases h2 : req.relation = "can_contribute" ∧ seg 0 req.object = "knowledge_base"
  · rw [if_pos h2] at h ⊢
    exact mono_check_kb_contribute g g2 hle req h
  rw [if_neg h2] at h ⊢
  by_cases h3 : req.relation = "can_curate" ∧ seg 0 req.object = "knowledge_base"
  · rw [if_pos h3] at h ⊢
    exact mono_check_kb_curate g g2 hle req h
  rw [if_neg h3] at h ⊢
  by_cases h4 : req.relation = "can_admin" ∧ seg 0 req.object = "knowledge_base"
  · rw [if_pos h4] at h ⊢
    exact mono_check_kb_admin g g2 hle req h
  rw [if_neg h4] at h ⊢
  by_cases h5 : req.relation = "can_view" ∧ seg 0 req.object = "document"
  · rw [if_pos h5] at h ⊢
    exact mono_check_document_view g g2 hle req h
  rw [if_neg h5] at h ⊢
  by_cases h6 : req.relation = "can_edit" ∧ seg 0 req.object = "document"
  · rw [if_pos h6] at h ⊢
    exact mono_check_document_edit g g2 hle req h
  rw [if_neg h6] at h ⊢
  by_cases h7 : req.relation = "can_delete" ∧ seg 0 req.object = "document"
  · rw [if_pos h7] at h ⊢
    exact mono_check_document_delete g g2 hle req h
  rw [if_neg h7] at h ⊢
  by_cases h8 : req.relation = "can_use_in_rag" ∧ seg 0 req.object = "document"
  · rw [if_pos h8] at h ⊢
    exact mono_check_document_view g g2 hle req h
  rw [if_neg h8] at h ⊢
  by_cases h9 : req.relation = "can_use" ∧ seg 0 req.object = "ai_model"
  · rw [if_pos h9] at h ⊢
    exact mono_check_model_use g g2 hle req h
  rw [if_neg h9] at h ⊢
  by_cases h10 : req.relation = "can_configure" ∧ seg 0 req.object = "ai_model"
  · rw [if_pos h10] at h ⊢
    exact mono_check_model_configure g g2 hle req h
  rw [if_neg h10] at h ⊢
  by_cases h11 : req.relation = "can_admin" ∧ seg 0 req.object = "ai_model"
  · rw [if_pos h11] at h ⊢
    exact mono_check_model_admin g g2 hle req h
  rw [if_neg h11] at h ⊢
  by_cases h12 : req.relation = "can_view" ∧ seg 0 req.object = "rag_session"
  · rw [if_pos h12] at h ⊢
    exact mono_check_session_view g g2 hle req h
  rw [if_neg h12] at h ⊢
  by_cases h13 : req.relation = "can_query" ∧ seg 0 req.object = "rag_session"
  · rw [if_pos h13] at h ⊢
    exact mono_check_session_view g g2 hle req h
  rw [if_neg h13] at h ⊢
  by_cases h14 : req.relation = "can_access_documents" ∧ seg 0 req.object = "rag_session"
  · rw [if_pos h14] at h ⊢
    exact mono_check_session_document_access g g2 hle req h
  rw [if_neg h14] at h ⊢
  by_cases h15 : req.relation = "can_view" ∧ seg 0 req.object = "rag_query"
  · rw [if_pos h15] at h ⊢
    exact mono_check_query_view g g2 hle req h
  rw [if_neg h15] at h ⊢
  by_cases h16 : req.relation = "can_access_results" ∧ seg 0 req.object = "rag_query"
  · rw [if_pos h16] at h ⊢
    exact mono_check_query_results g g2 hle req h
  rw [if_neg h16] at h ⊢
  simp at h
theorem orgle_refl (o : GenAI.Organization) : GenAI.OrgLE o o :=
  ⟨subl_refl _, subl_refl _⟩

theorem kble_refl (kb : GenAI.KnowledgeBase) : GenAI.KbLE kb kb :=
  ⟨rfl, subl_refl _, subl_refl _, subl_refl _⟩

theorem docle_refl (d : GenAI.Document) : GenAI.DocLE d d :=
  ⟨rfl, rfl, subl_refl _, subl_refl _⟩

theorem modelle_refl (m : GenAI.AIModel) : GenAI.ModelLE m m :=
  ⟨rfl, subl_refl _, subl_refl _⟩

theorem sessle_refl (s : GenAI.RAGSession) : GenAI.SessLE s s :=
  ⟨rfl, rfl, subl_refl _⟩

theorem addMember_stateLE (slot : GenAI.Slot) (w : String) (g : GenAI.State)
    (hq : slot.isQueriedDocs = false) : GenAI.StateLE g (GenAI.addMember slot w g) := by
  cases slot with
  | orgAdmins i =>
    refine ⟨?_, ?_, ?_, ?_, ?_, ?_⟩
    · exact optRel_lookup_updAssoc GenAI.OrgLE g.organizations i
        (fun o => { o with admins := o.admins ++ [w] }) orgle_refl (fun v => ⟨subl_append _ _, subl_refl _⟩)
    · exact fun k => optRel_refl _ kble_refl _
    · exact fun k => optRel_refl _ docle_refl _
    · exact fun k => optRel_refl _ modelle_refl _
    · exact fun k => optRel_refl _ sessle_refl _
    · exact fun k => rfl
  | orgMembers i =>
    refine ⟨?_, ?_, ?_, ?_, ?_, ?_⟩
    · exact optRel_lookup_updAssoc GenAI.OrgLE g.organizations i
        (fun o => { o with members := o.members ++ [w] }) orgle_refl (fun v => ⟨subl_refl _, subl_append _ _⟩)
    · exact fun k => optRel_refl _ kble_refl _
    · exact fun k => optRel_refl _ docle_refl _
    · exact fun k => optRel_refl _ modelle_refl _
    · exact fun k => optRel_refl _ sessle_refl _
    · exact fun k => rfl
  | kbCurators i =>
    refine ⟨?_, ?_, ?_, ?_, ?_, ?_⟩
    · exact fun k => optRel_refl _ orgle_refl _
    · exact optRel_lookup_updAssoc GenAI.KbLE g.knowledge_bases i
        (fun kb => { kb with curators := kb.curators ++ [w] }) kble_refl (fun v => ⟨rfl, subl_append _ _, subl_refl _, subl_refl _⟩)
    · exact fun k => optRel_refl _ docle_refl _
    · exact fun k => optRel_refl _ modelle_refl _
    · exact fun k => optRel_refl _ sessle_refl _
    · exact fun k => rfl
  | kbContributors i =>
    refine ⟨?_, ?_, ?_, ?_, ?_, ?_⟩
    · exact fun k => optRel_refl _ orgle_refl _
    · exact optRel_lookup_updAssoc GenAI.KbLE g.knowledge_bases i
        (fun kb => { kb with contributors := kb.contributors ++ [w] }) kble_refl (fun v => ⟨rfl, subl_refl _, subl_append _ _, subl_refl _⟩)
    · exact fun k => optRel_refl _ docle_refl _
    · exact fun k => optRel_refl _ modelle_refl _
    · exact fun k => optRel_refl _ sessle_refl _
    · exact fun k => rfl
  | kbReaders i =>
    refine ⟨?_, ?_, ?_, ?_, ?_, ?_⟩
    · exact fun k => optRel_refl _ orgle_refl _
    · exact optRel_lookup_updAssoc GenAI.KbLE g.knowledge_bases i
        (fun kb => { kb with readers := kb.readers ++ [w] }) kble_refl (fun v => ⟨rfl, subl_refl _, subl_refl _, subl_append _ _⟩)
    · exact fun k => optRel_refl _ docle_refl _
    · exact fun k => optRel_refl _ modelle_refl _
    · exact fun k => optRel_refl _ sessle_refl _
    · exact fun k => rfl
  | docEditors i =>
    refine ⟨?_, ?_, ?_, ?_, ?_, ?_⟩
    · exact fun k => optRel_refl _ orgle_refl _
    · exact fun k => optRel_refl _ kble_refl _
    · exact optRel_lookup_updAssoc GenAI.DocLE g.documents i
        (fun doc => { doc with editors := doc.editors ++ [w] }) docle_refl (fun v => ⟨rfl, rfl, subl_append _ _, subl_refl _⟩)
    · exact fun k => optRel_refl _ modelle_refl _
    · exact fun k => optRel_refl _ sessle_refl _
    · exact fun k => rfl
  | docViewers i =>
    refine ⟨?_, ?_, ?_, ?_, ?_, ?_⟩
    · exact fun k => optRel_refl _ orgle_refl _
    · exact fun k => optRel_refl _ kble_refl _
    · exact optRel_lookup_updAssoc GenAI.DocLE g.documents i
        (fun doc => { doc with viewers := doc.viewers ++ [w] }) docle_refl (fun v => ⟨rfl, rfl, subl_refl _, subl_append _ _⟩)
    · exact fun k => optRel_refl _ modelle_refl _
    · exact fun k => optRel_refl _ sessle_refl _
    · exact fun k => rfl
  | modelOperators i =>
    refine ⟨?_, ?_, ?_, ?_, ?_, ?_⟩
    · exact fun k => optRel_refl _ orgle_refl _
    · exact fun k => optRel_refl _ kble_refl _
    · exact fun k => optRel_refl _ docle_refl _
    · exact optRel_lookup_updAssoc GenAI.ModelLE g.ai_models i
        (fun m => { m with operators := m.operators ++ [w] }) modelle_refl (fun v => ⟨rfl, subl_append _ _, subl_refl _⟩)
    · exact fun k => optRel_refl _ sessle_refl _
    · exact fun k => rfl
  | modelUsers i =>
    refine ⟨?_, ?_, ?_, ?_, ?_, ?_⟩
    · exact fun k => optRel_refl _ orgle_refl _
    · exact fun k => optRel_refl _ kble_refl _
    · exact fun k => optRel_refl _ docle_refl _
    · exact optRel_lookup_updAssoc GenAI.ModelLE g.ai_models i
        (fun m => { m with users := m.users ++ [w] }) modelle_refl (fun v => ⟨rfl, subl_refl _, subl_append _ _⟩)
    · exact fun k => optRel_refl _ sessle_refl _
    · exact fun k => rfl
  | sessionParticipants i =>
    refine ⟨?_, ?_, ?_, ?_, ?_, ?_⟩
    · exact fun k => optRel_refl _ orgle_refl _
    · exact fun k => optRel_refl _ kble_refl _
    · exact fun k => optRel_refl _ docle_refl _
    · exact fun k => optRel_refl _ modelle_refl _
    · exact optRel_lookup_updAssoc GenAI.SessLE g.rag_sessions i
        (fun s2 => { s2 with participants := s2.participants ++ [w] }) sessle_refl (fun v => ⟨rfl, rfl, subl_append _ _⟩)
    · exact fun k => rfl
  | queryQueriedDocuments i => simp [GenAI.Slot.isQueriedDocs] at hq
theorem mono_b_is_account_authorized_user (g g2 : Banking.State)
    (hle : Banking.StateLE g g2) (i u : String)
    (h : Banking.is_account_authorized_user g i u = true) :
    Banking.is_account_authorized_user g2 i u = true := by
  unfold Banking.is_account_authorized_user at h ⊢
  have hrel := hle.accounts i
  cases hl : List.lookup i g.accounts with
  | none => rw [hl] at h; simp at h
  | some e =>
    rw [hl] at h hrel
    cases hl2 : List.lookup i g2.accounts with
    | none => rw [hl2] at hrel; exact (hrel : False).elim
    | some e2 =>
      rw [hl2] at hrel
      have hee : Banking.AccountLE e e2 := hrel
      dsimp only at h ⊢
      simp only [Bool.or_eq_true] at h ⊢
      rcases h with h1 | h1
      · exact Or.inl (subl_contains _ _ hee.2.1 u h1)
      · exact Or.inr (subl_contains _ _ hee.2.2 u h1)

theorem mono_b_is_branch_teller (g g2 : Banking.State)
    (hle : Banking.StateLE g g2) (i u : String)
    (h : Banking.is_branch_teller g i u = true) :
    Banking.is_branch_teller g2 i u = true := by
  unfold Banking.is_branch_teller at h ⊢
  have hrel := hle.accounts i
  cases hl : List.lookup i g.accounts with
  | none => rw [hl] at h; simp at h
  | some e =>
    rw [hl] at h hrel
    cases hl2 : List.lookup i g2.accounts with
    | none => rw [hl2] at hrel; exact (hrel : False).elim
    | some e2 =>
      rw [hl2] at hrel
      have hee : Banking.AccountLE e e2 := hrel
      dsimp only at h ⊢
      rw [hee.1]
      have hbrel := hle.branches e.parent_branch_id
      cases hb : List.lookup e.parent_branch_id g.branches with
      | none => rw [hb] at h; simp at h
      | some br =>
        rw [hb] at h hbrel
        cases hb2 : List.lookup e.parent_branch_id g2.branches with
        | none => rw [hb2] at hbrel; exact (hbrel : False).elim
        | some br2 =>
          rw [hb2] at hbrel
          have hbb : Banking.BranchLE br br2 := hbrel
          exact subl_contains _ _ hbb.2 u h

theorem mono_b_is_branch_manager (g g2 : Banking.State)
    (hle : Banking.StateLE g g2) (i u : String)
    (h : Banking.is_branch_manager g i u = true) :
    Banking.is_branch_manager g2 i u = true := by
  unfold Banking.is_branch_manager at h ⊢
  have hrel := hle.accounts i
  cases hl : List.lookup i g.accounts with
  | none => rw [hl] at h; simp at h
  | some e =>
    rw [hl] at h hrel
    cases hl2 : List.lookup i g2.accounts with
    | none => rw [hl2] at hrel; exact (hrel : False).elim
    | some e2 =>
      rw [hl2] at hrel
      have hee : Banking.AccountLE e e2 := hrel
      dsimp only at h ⊢
      rw [hee.1]
      have hbrel := hle.branches e.parent_branch_id
      cases hb : List.lookup e.parent_branch_id g.branches with
      | none => rw [hb] at h; simp at h
      | some br =>
        rw [hb] at h hbrel
        cases hb2 : List.lookup e.parent_branch_id g2.branches with
        | none => rw [hb2] at hbrel; exact (hbrel : False).elim
        | some br2 =>
          rw [hb2] at hbrel
          have hbb : Banking.BranchLE br br2 := hbrel
          dsimp only at h ⊢
          rw [hbb.1]
          exact h

theorem mono_b_is_branch_employee (g g2 : Banking.State)
    (hle : Banking.StateLE g g2) (i u : String)
    (h : Banking.is_branch_employee g i u = true) :
    Banking.is_branch_employee g2 i u = true := by
  unfold Banking.is_branch_employee at h ⊢
  simp only [Bool.or_eq_true] at h ⊢
  rcases h with h1 | h1
  · exact Or.inl (mono_b_is_branch_teller g g2 hle _ _ h1)
  · exact Or.inr (mono_b_is_branch_manager g g2 hle _ _ h1)

theorem mono_b_is_loan_branch_manager (g g2 : Banking.State)
    (hle : Banking.StateLE g g2) (i u : String)
    (h : Banking.is_loan_branch_manager g i u = true) :
    Banking.is_loan_branch_manager g2 i u = true := by
  unfold Banking.is_loan_branch_manager at h ⊢
  have hrel := hle.loans i
  cases hl : List.lookup i g.loans with
  | none => rw [hl] at h; simp at h
  | some e =>
    rw [hl] at h hrel
    cases hl2 : List.lookup i g2.loans with
    | none => rw [hl2] at hrel; exact (hrel : False).elim
    | some e2 =>
      rw [hl2] at hrel
      have hee : Banking.LoanLE e e2 := hrel
      dsimp only at h ⊢
      rw [hee.2.2.1]
      have hbrel := hle.branches e.parent_branch_id
      cases hb : List.lookup e.parent_branch_id g.branches with
      | none => rw [hb] at h; simp at h
      | some br =>
        rw [hb] at h hbrel
        cases hb2 : List.lookup e.parent_branch_id g2.branches with
        | none => rw [hb2] at hbrel; exact (hbrel : False).elim
        | some br2 =>
          rw [hb2] at hbrel
          have hbb : Banking.BranchLE br br2 := hbrel
          dsimp only at h ⊢
          rw [hbb.1]
          exact h
theorem mono_b_check_account_view (g g2 : Banking.State) (hle : Banking.StateLE g g2)
    (req : AuthorizationRequest) (h : (Banking.check_account_view_permission g req).allowed = true) :
    (Banking.check_account_view_permission g2 req).allowed = true := by
  simp only [Banking.check_account_view_permission] at h ⊢
  split at h
  case isTrue hc =>
    split
    · rfl
    case isFalse hd =>
        exact absurd (mono_b_is_account_authorized_user g g2 hle _ _ hc) hd
  case isFalse hc =>
    split at h
    case isTrue hc2 =>
      split
      · rfl
      case isFalse hd =>
        split
        · rfl
        case isFalse hd2 => exact absurd (mono_b_is_branch_employee g g2 hle _ _ hc2) hd2
    case isFalse hc2 => simp at h

theorem mono_b_check_account_deposit (g g2 : Banking.State) (hle : Banking.StateLE g g2)
    (req : AuthorizationRequest) (h : (Banking.check_account_deposit_permission g req).allowed = true) :
    (Banking.check_account_deposit_permission g2 req).allowed = true := by
  simp only [Banking.check_account_deposit_permission] at h ⊢
  split at h
  case isTrue hc =>
    split
    · rfl
    case isFalse hd =>
        refine absurd ?_ hd
        simp only [Bool.or_eq_true] at hc ⊢
        rcases hc with h1 | h1
        · exact Or.inl (mono_b_is_account_authorized_user g g2 hle _ _ h1)
        · exact Or.inr (mono_b_is_branch_teller g g2 hle _ _ h1)
  case isFalse hc => simp at h

theorem mono_b_check_account_withdraw (g g2 : Banking.State) (hle : Banking.StateLE g g2)
    (req : AuthorizationRequest) (h : (Banking.check_account_withdraw_permission g req).allowed = true) :
    (Banking.check_account_withdraw_permission g2 req).allowed = true := by
  simp only [Banking.check_account_withdraw_permission] at h ⊢
  split at h
  case isTrue hc =>
    split
    · rfl
    case isFalse hd =>
        refine absurd ?_ hd
        simp only [Bool.or_eq_true] at hc ⊢
        rcases hc with h1 | h1
        · exact Or.inl (mono_b_is_account_authorized_user g g2 hle _ _ h1)
        · exact Or.inr (mono_b_is_branch_manager g g2 hle _ _ h1)
  case isFalse hc => simp at h

theorem mono_b_check_account_transfer (g g2 : Banking.State) (hle : Banking.StateLE g g2)
    (req : AuthorizationRequest) (h : (Banking.check_account_transfer_permission g req).allowed = true) :
    (Banking.check_account_transfer_permission g2 req).allowed = true := by
  simp only [Banking.check_account_transfer_permission] at h ⊢
  split at h
  case isTrue hc =>
    split
    · rfl
    case isFalse hd =>
        exact absurd (mono_b_is_account_authorized_user g g2 hle _ _ hc) hd
  case isFalse hc => simp at h

theorem mono_b_check_loan_view (g g2 : Banking.State) (hle : Banking.StateLE g g2)
    (req : AuthorizationRequest) (h : (Banking.check_loan_view_permission g req).allowed = true) :
    (Banking.check_loan_view_permission g2 req).allowed = true := by
  simp only [Banking.check_loan_view_permission] at h ⊢
  have hrel := hle.loans (seg 1 req.object)
  cases hl : List.lookup (seg 1 req.object) g.loans with
  | none => rw [hl] at h; simp at h
  | some loan =>
    rw [hl] at h hrel
    cases hl2 : List.lookup (seg 1 req.object) g2.loans with
    | none => rw [hl2] at hrel; exact (hrel : False).elim
    | some loan2 =>
      rw [hl2] at hrel
      have hll : Banking.LoanLE loan loan2 := hrel
      dsimp only at h ⊢
      split at h
      case isTrue hc =>
        split
        · rfl
        case isFalse hd =>
          refine absurd ?_ hd
          simp only [Bool.or_eq_true] at hc ⊢
          rcases hc with ((h1 | h1) | h1) | h1
          · exact Or.inl (Or.inl (Or.inl (show _ = true by rw [hll.1]; exact h1)))
          · exact Or.inl (Or.inl (Or.inr (subl_contains _ _ hll.2.2.2 _ h1)))
          · exact Or.inl (Or.inr (show _ = true by rw [hll.2.1]; exact h1))
          · exact Or.inr (mono_b_is_loan_branch_manager g g2 hle _ _ h1)
      case isFalse hc => simp at h

theorem mono_b_check_loan_approve (g g2 : Banking.State) (hle : Banking.StateLE g g2)
    (req : AuthorizationRequest) (h : (Banking.check_loan_approve_permission g req).allowed = true) :
    (Banking.check_loan_approve_permission g2 req).allowed = true := by
  simp only [Banking.check_loan_approve_permission] at h ⊢
  have hrel := hle.loans (seg 1 req.object)
  cases hl : List.lookup (seg 1 req.object) g.loans with
  | none => rw [hl] at h; simp at h
  | some loan =>
    rw [hl] at h hrel
    cases hl2 : List.lookup (seg 1 req.object) g2.loans with
    | none => rw [hl2] at hrel; exact (hrel : False).elim
    | some loan2 =>
      rw [hl2] at hrel
      have hll : Banking.LoanLE loan loan2 := hrel
      dsimp only at h ⊢
      split at h
      case isTrue hc =>
        split
        · rfl
        case isFalse hd =>
          refine absurd ?_ hd
          simp only [Bool.or_eq_true] at hc ⊢
          rcases hc with h1 | h1
          · exact Or.inl (show _ = true by rw [hll.2.1]; exact h1)
          · exact Or.inr (mono_b_is_loan_branch_manager g g2 hle _ _ h1)
      case isFalse hc => simp at h

theorem mono_b_check_loan_modify (g g2 : Banking.State) (hle : Banking.StateLE g g2)
    (req : AuthorizationRequest) (h : (Banking.check_loan_modify_permission g req).allowed = true) :
    (Banking.check_loan_modify_permission g2 req).allowed = true := by
  simp only [Banking.check_loan_modify_permission] at h ⊢
  have hrel := hle.loans (seg 1 req.object)
  cases hl : List.lookup (seg 1 req.object) g.loans with
  | none => rw [hl] at h; simp at h
  | some loan =>
    rw [hl] at h hrel
    cases hl2 : List.lookup (seg 1 req.object) g2.loans with
    | none => rw [hl2] at hrel; exact (hrel : False).elim
    | some loan2 =>
      rw [hl2] at hrel
      have hll : Banking.LoanLE loan loan2 := hrel
      dsimp only at h ⊢
      split at h
      case isTrue hc =>
        split
        · rfl
        case isFalse hd =>
          refine absurd ?_ hd
          rw [hll.2.1]
          exact hc
      case isFalse hc => simp at h
theorem branchle_refl (b : Banking.Branch) : Banking.BranchLE b b :=
  ⟨rfl, subl_refl _⟩

theorem accountle_refl (a : Banking.Account) : Banking.AccountLE a a :=
  ⟨rfl, subl_refl _, subl_refl _⟩

theorem loanle_refl (l : Banking.Loan) : Banking.LoanLE l l :=
  ⟨rfl, rfl, rfl, subl_refl _⟩

theorem mono_b_check_authorization (g g2 : Banking.State) (hle : Banking.StateLE g g2)
    (req : AuthorizationRequest)
    (h : (Banking.check_authorization g req).allowed = true) :
    (Banking.check_authorization g2 req).allowed = true := by
  simp only [Banking.check_authorization] at h ⊢
  by_cases h1 : req.relation = "can_view" ∧ seg 0 req.object = "account"
  · rw [if_pos h1] at h ⊢
    exact mono_b_check_account_view g g2 hle req h
  rw [if_neg h1] at h ⊢
  by_cases h2 : req.relation = "can_deposit" ∧ seg 0 req.object = "account"
  · rw [if_pos h2] at h ⊢
    exact mono_b_check_account_deposit g g2 hle req h
  rw [if_neg h2] at h ⊢
  by_cases h3 : req.relation = "can_withdraw" ∧ seg 0 req.object = "account"
  · rw [if_pos h3] at h ⊢
    exact mono_b_check_account_withdraw g g2 hle req h
  rw [if_neg h3] at h ⊢
  by_cases h4 : req.relation = "can_transfer" ∧ seg 0 req.object = "account"
  · rw [if_pos h4] at h ⊢
    exact mono_b_check_account_transfer g g2 hle req h
  rw [if_neg h4] at h ⊢
  by_cases h5 : req.relation = "can_view" ∧ seg 0 req.object = "loan"
  · rw [if_pos h5] at h ⊢
    exact mono_b_check_loan_view g g2 hle req h
  rw [if_neg h5] at h ⊢
  by_cases h6 : req.relation = "can_approve" ∧ seg 0 req.object = "loan"
  · rw [if_pos h6] at h ⊢
    exact mono_b_check_loan_approve g g2 hle req h
  rw [if_neg h6] at h ⊢
  by_cases h7 : req.relation = "can_modify" ∧ seg 0 req.object = "loan"
  · rw [if_pos h7] at h ⊢
    exact mono_b_check_loan_modify g g2 hle req h
  rw [if_neg h7] at h ⊢
  simp at h

theorem addMember_stateLE_banking (slot : Banking.Slot) (w : String) (g : Banking.State) :
    Banking.StateLE g (Banking.addMember slot w g) := by
  cases slot with
  | bankAdmins i =>
    refine ⟨?_, ?_, ?_⟩
    · exact fun k => optRel_refl _ branchle_refl _
    · exact fun k => optRel_refl _ accountle_refl _
    · exact fun k => optRel_refl _ loanle_refl _
  | bankManagers i =>
    refine ⟨?_, ?_, ?_⟩
    · exact fun k => optRel_refl _ branchle_refl _
    · exact fun k => optRel_refl _ accountle_refl _
    · exact fun k => optRel_refl _ loanle_refl _
  | branchTellers i =>
    refine ⟨?_, ?_, ?_⟩
    · exact optRel_lookup_updAssoc Banking.BranchLE g.branches i
        (fun b => { b with tellers := b.tellers ++ [w] }) branchle_refl (fun v => ⟨rfl, subl_append _ _⟩)
    · exact fun k => optRel_refl _ accountle_refl _
    · exact fun k => optRel_refl _ loanle_refl _
  | accountOwners i =>
    refine ⟨?_, ?_, ?_⟩
    · exact fun k => optRel_refl _ branchle_refl _
    · exact optRel_lookup_updAssoc Banking.AccountLE g.accounts i
        (fun a => { a with owners := a.owners ++ [w] }) accountle_refl (fun v => ⟨rfl, subl_append _ _, subl_refl _⟩)
    · exact fun k => optRel_refl _ loanle_refl _
  | accountCoOwners i =>
    refine ⟨?_, ?_, ?_⟩
    · exact fun k => optRel_refl _ branchle_refl _
    · exact optRel_lookup_updAssoc Banking.AccountLE g.accounts i
        (fun a => { a with co_owners := a.co_owners ++ [w] }) accountle_refl (fun v => ⟨rfl, subl_refl _, subl_append _ _⟩)
    · exact fun k => optRel_refl _ loanle_refl _
  | loanCoBorrowers i =>
    refine ⟨?_, ?_, ?_⟩
    · exact fun k => optRel_refl _ branchle_refl _
    · exact fun k => optRel_refl _ accountle_refl _
    · exact optRel_lookup_updAssoc Banking.LoanLE g.loans i
        (fun l => { l with co_borrowers := l.co_borrowers ++ [w] }) loanle_refl (fun v => ⟨rfl, rfl, rfl, subl_append _ _⟩)

/-- Counterexample refuting claim C5 as stated: adding a member (the
document id `docX`) to the `queried_documents` relation list of query
`q1` flips the previously-allowed `can_access_results` decision of the
query's initiator to denied, because the check is a conjunction over
exactly that list. -/
theorem grant_monotonicity_counterexample :
    (GenAI.check_authorization GenAI.monoState
      { user := "user:u", relation := "can_access_results",
        object := "rag_query:q1" }).allowed = true ∧
    (GenAI.check_authorization
        (GenAI.addMember (GenAI.Slot.queryQueriedDocuments "q1") "docX" GenAI.monoState)
      { user := "user:u", relation := "can_access_results",
        object := "rag_query:q1" }).allowed = false :=
  ⟨by decide, by decide⟩

/-- Claim C5 as amended: adding a member to any relation list of any
entity never turns a previously-allowed decision into denied — for every
banking relation list, and for every GenAI relation list except the
`queried_documents` list of a RAG query, whose conjunction-gated
`can_access_results` is not monotone in it. -/
theorem grant_monotonicity_amended :
    (∀ (g : Banking.State) (slot : Banking.Slot) (w : String)
        (req : AuthorizationRequest),
      (Banking.check_authorization g req).allowed = true →
      (Banking.check_authorization (Banking.addMember slot w g) req).allowed = true) ∧
    (∀ (g : GenAI.State) (slot : GenAI.Slot) (w : String)
        (req : AuthorizationRequest),
      slot.isQueriedDocs = false →
      (GenAI.check_authorization g req).allowed = true →
      (GenAI.check_authorization (GenAI.addMember slot w g) req).allowed = true) :=
  ⟨fun g slot w req h =>
    mono_b_check_authorization g (Banking.addMember slot w g)
      (addMember_stateLE_banking slot w g) req h,
   fun g slot w req hq h =>
    mono_check_authorization g (GenAI.addMember slot w g)
      (addMember_stateLE slot w g hq) req h⟩

/-- Witness for C5 (amended): granting reader or co-owner rights to a new
user leaves previously-allowed demo decisions allowed. -/
theorem grant_monotonicity_amended_witness :
    (Banking.check_authorization
        (Banking.addMember (Banking.Slot.accountCoOwners "acc1") "zoe" Banking.demoState)
      { user := "user:alice", relation := "can_view",
        object := "account:acc1" }).allowed = true ∧
    (GenAI.check_authorization
        (GenAI.addMember (GenAI.Slot.kbReaders "kb1") "zoe" GenAI.demoState)
      { user := "user:bob", relation := "can_view",
        object := "document:doc1" }).allowed = true :=
  ⟨grant_monotonicity_amended.1 Banking.demoState
      (Banking.Slot.accountCoOwners "acc1") "zoe"
      { user := "user:alice", relation := "can_view", object := "account:acc1" }
      (by decide),
   grant_monotonicity_amended.2 GenAI.demoState
      (GenAI.Slot.kbReaders "kb1") "zoe"
      { user := "user:bob", relation := "can_view", object := "document:doc1" }
      (by decide) (by decide)⟩
